import Mathlib

/-!
# Weston: the xdg-shell-unstable-v6 compatibility shim

A shallow embedding of `libweston-desktop/xdg-shell-v6.c` and of the data
declarations of `libweston-desktop/xdg-shell.h`.

Request handlers and event emitters are `void` C functions whose only
observable behaviour is the sequence of calls they make into libwayland and
into the canonical xdg-shell implementation.  Each is embedded as a function
returning that sequence (`List Effect`); objects passed by pointer are
embedded by explicit state passing.  Wire integers are `Nat` (unsigned 32 bit)
and `Int` (signed 32 bit); `wl_client *` and `wl_resource *` handles are `Nat`.
-/

namespace Weston

/-! ## Protocol constants

The enumerators of the two protocol generations live in headers generated from
the protocol descriptions, `xdg-shell-unstable-v6-server-protocol.h` (legacy)
and `xdg-shell-server-protocol.h` (stable).  Legacy anchors and gravities are
bit flags over four directions; the canonical ones are nine discrete values. -/

/-- Modelled from the spec: the enumerator ZXDG_POSITIONER_V6_ANCHOR_NONE of the generated header
xdg-shell-unstable-v6-server-protocol.h, which is not in the source tree; the legacy anchor value with no direction. -/
def ZXDG_POSITIONER_V6_ANCHOR_NONE : Nat := 0

/-- Modelled from the spec: the enumerator ZXDG_POSITIONER_V6_ANCHOR_TOP of the generated header
xdg-shell-unstable-v6-server-protocol.h, which is not in the source tree; the legacy anchor bit flag for top. -/
def ZXDG_POSITIONER_V6_ANCHOR_TOP : Nat := 1

/-- Modelled from the spec: the enumerator ZXDG_POSITIONER_V6_ANCHOR_BOTTOM of the generated header
xdg-shell-unstable-v6-server-protocol.h, which is not in the source tree; the legacy anchor bit flag for bottom. -/
def ZXDG_POSITIONER_V6_ANCHOR_BOTTOM : Nat := 2

/-- Modelled from the spec: the enumerator ZXDG_POSITIONER_V6_ANCHOR_LEFT of the generated header
xdg-shell-unstable-v6-server-protocol.h, which is not in the source tree; the legacy anchor bit flag for left. -/
def ZXDG_POSITIONER_V6_ANCHOR_LEFT : Nat := 4

/-- Modelled from the spec: the enumerator ZXDG_POSITIONER_V6_ANCHOR_RIGHT of the generated header
xdg-shell-unstable-v6-server-protocol.h, which is not in the source tree; the legacy anchor bit flag for right. -/
def ZXDG_POSITIONER_V6_ANCHOR_RIGHT : Nat := 8

/-- Modelled from the spec: the enumerator ZXDG_POSITIONER_V6_GRAVITY_NONE of the generated header
xdg-shell-unstable-v6-server-protocol.h, which is not in the source tree; the legacy gravity value with no direction. -/
def ZXDG_POSITIONER_V6_GRAVITY_NONE : Nat := 0

/-- Modelled from the spec: the enumerator ZXDG_POSITIONER_V6_GRAVITY_TOP of the generated header
xdg-shell-unstable-v6-server-protocol.h, which is not in the source tree; the legacy gravity bit flag for top. -/
def ZXDG_POSITIONER_V6_GRAVITY_TOP : Nat := 1

/-- Modelled from the spec: the enumerator ZXDG_POSITIONER_V6_GRAVITY_BOTTOM of the generated header
xdg-shell-unstable-v6-server-protocol.h, which is not in the source tree; the legacy gravity bit flag for bottom. -/
def ZXDG_POSITIONER_V6_GRAVITY_BOTTOM : Nat := 2

/-- Modelled from the spec: the enumerator ZXDG_POSITIONER_V6_GRAVITY_LEFT of the generated header
xdg-shell-unstable-v6-server-protocol.h, which is not in the source tree; the legacy gravity bit flag for left. -/
def ZXDG_POSITIONER_V6_GRAVITY_LEFT : Nat := 4

/-- Modelled from the spec: the enumerator ZXDG_POSITIONER_V6_GRAVITY_RIGHT of the generated header
xdg-shell-unstable-v6-server-protocol.h, which is not in the source tree; the legacy gravity bit flag for right. -/
def ZXDG_POSITIONER_V6_GRAVITY_RIGHT : Nat := 8

/-- Modelled from the spec: the enumerator ZXDG_POSITIONER_V6_ERROR_INVALID_INPUT of the generated header
xdg-shell-unstable-v6-server-protocol.h, which is not in the source tree; the legacy positioner error code for invalid input. -/
def ZXDG_POSITIONER_V6_ERROR_INVALID_INPUT : Nat := 0

/-- Modelled from the spec: the enumerator XDG_POSITIONER_ANCHOR_NONE of the generated header
xdg-shell-server-protocol.h, which is not in the source tree; the canonical anchor value for no direction, the centre. -/
def XDG_POSITIONER_ANCHOR_NONE : Nat := 0

/-- Modelled from the spec: the enumerator XDG_POSITIONER_ANCHOR_TOP of the generated header
xdg-shell-server-protocol.h, which is not in the source tree; the canonical anchor value for top. -/
def XDG_POSITIONER_ANCHOR_TOP : Nat := 1

/-- Modelled from the spec: the enumerator XDG_POSITIONER_ANCHOR_BOTTOM of the generated header
xdg-shell-server-protocol.h, which is not in the source tree; the canonical anchor value for bottom. -/
def XDG_POSITIONER_ANCHOR_BOTTOM : Nat := 2

/-- Modelled from the spec: the enumerator XDG_POSITIONER_ANCHOR_LEFT of the generated header
xdg-shell-server-protocol.h, which is not in the source tree; the canonical anchor value for left. -/
def XDG_POSITIONER_ANCHOR_LEFT : Nat := 3

/-- Modelled from the spec: the enumerator XDG_POSITIONER_ANCHOR_RIGHT of the generated header
xdg-shell-server-protocol.h, which is not in the source tree; the canonical anchor value for right. -/
def XDG_POSITIONER_ANCHOR_RIGHT : Nat := 4

/-- Modelled from the spec: the enumerator XDG_POSITIONER_ANCHOR_TOP_LEFT of the generated header
xdg-shell-server-protocol.h, which is not in the source tree; the canonical anchor value for top left. -/
def XDG_POSITIONER_ANCHOR_TOP_LEFT : Nat := 5

/-- Modelled from the spec: the enumerator XDG_POSITIONER_ANCHOR_BOTTOM_LEFT of the generated header
xdg-shell-server-protocol.h, which is not in the source tree; the canonical anchor value for bottom left. -/
def XDG_POSITIONER_ANCHOR_BOTTOM_LEFT : Nat := 6

/-- Modelled from the spec: the enumerator XDG_POSITIONER_ANCHOR_TOP_RIGHT of the generated header
xdg-shell-server-protocol.h, which is not in the source tree; the canonical anchor value for top right. -/
def XDG_POSITIONER_ANCHOR_TOP_RIGHT : Nat := 7

/-- Modelled from the spec: the enumerator XDG_POSITIONER_ANCHOR_BOTTOM_RIGHT of the generated header
xdg-shell-server-protocol.h, which is not in the source tree; the canonical anchor value for bottom right. -/
def XDG_POSITIONER_ANCHOR_BOTTOM_RIGHT : Nat := 8

/-- Modelled from the spec: the enumerator XDG_POSITIONER_GRAVITY_NONE of the generated header
xdg-shell-server-protocol.h, which is not in the source tree; the canonical gravity value for no direction, the centre. -/
def XDG_POSITIONER_GRAVITY_NONE : Nat := 0

/-- Modelled from the spec: the enumerator XDG_POSITIONER_GRAVITY_TOP of the generated header
xdg-shell-server-protocol.h, which is not in the source tree; the canonical gravity value for top. -/
def XDG_POSITIONER_GRAVITY_TOP : Nat := 1

/-- Modelled from the spec: the enumerator XDG_POSITIONER_GRAVITY_BOTTOM of the generated header
xdg-shell-server-protocol.h, which is not in the source tree; the canonical gravity value for bottom. -/
def XDG_POSITIONER_GRAVITY_BOTTOM : Nat := 2

/-- Modelled from the spec: the enumerator XDG_POSITIONER_GRAVITY_LEFT of the generated header
xdg-shell-server-protocol.h, which is not in the source tree; the canonical gravity value for left. -/
def XDG_POSITIONER_GRAVITY_LEFT : Nat := 3

/-- Modelled from the spec: the enumerator XDG_POSITIONER_GRAVITY_RIGHT of the generated header
xdg-shell-server-protocol.h, which is not in the source tree; the canonical gravity value for right. -/
def XDG_POSITIONER_GRAVITY_RIGHT : Nat := 4

/-- Modelled from the spec: the enumerator XDG_POSITIONER_GRAVITY_TOP_LEFT of the generated header
xdg-shell-server-protocol.h, which is not in the source tree; the canonical gravity value for top left. -/
def XDG_POSITIONER_GRAVITY_TOP_LEFT : Nat := 5

/-- Modelled from the spec: the enumerator XDG_POSITIONER_GRAVITY_BOTTOM_LEFT of the generated header
xdg-shell-server-protocol.h, which is not in the source tree; the canonical gravity value for bottom left. -/
def XDG_POSITIONER_GRAVITY_BOTTOM_LEFT : Nat := 6

/-- Modelled from the spec: the enumerator XDG_POSITIONER_GRAVITY_TOP_RIGHT of the generated header
xdg-shell-server-protocol.h, which is not in the source tree; the canonical gravity value for top right. -/
def XDG_POSITIONER_GRAVITY_TOP_RIGHT : Nat := 7

/-- Modelled from the spec: the enumerator XDG_POSITIONER_GRAVITY_BOTTOM_RIGHT of the generated header
xdg-shell-server-protocol.h, which is not in the source tree; the canonical gravity value for bottom right. -/
def XDG_POSITIONER_GRAVITY_BOTTOM_RIGHT : Nat := 8

/-! ## Effects

Every call a function of `xdg-shell-v6.c` makes out of the file: into
libwayland (`wl_resource_post_error`, the generated `*_send_*` event
emitters) and into the canonical handlers of the stable xdg-shell
implementation, which `xdg-shell.h` only declares. -/

/-- One outgoing call, with its arguments in the order of the C call. -/
inductive Effect where
  | wl_resource_post_error (resource code : Nat) (msg : String)
  | weston_desktop_xdg_wm_positioner_protocol_set_anchor
      (wl_client resource anchor : Nat)
  | weston_desktop_xdg_wm_positioner_protocol_set_gravity
      (wl_client resource gravity : Nat)
  | weston_desktop_xdg_wm_positioner_protocol_set_constraint_adjustment
      (wl_client resource constraint_adjustment : Nat)
  | weston_desktop_xdg_wm_toplevel_protocol_resize
      (wl_client resource seat_resource serial edges : Nat)
  | zxdg_popup_v6_send_configure (resource : Nat) (x y width height : Int)
  | zxdg_toplevel_v6_send_configure (resource : Nat) (width height : Int)
      (states : List Nat)
  | zxdg_toplevel_v6_send_close (resource : Nat)
  | zxdg_popup_v6_send_popup_done (resource : Nat)
  | zxdg_shell_v6_send_ping (resource serial : Nat)
  deriving DecidableEq, Repr

/-- The macro `BIT_TEST(v,f)`: `(((v) & (f))==(f))`. -/
def BIT_TEST (v f : Nat) : Bool := (v &&& f) == f

/-- C truth value of an integer expression used as a condition. -/
def truthy (v : Nat) : Bool := v != 0

/-- The request handler `weston_desktop_xdg_positioner_v6_protocol_set_anchor`. -/
def weston_desktop_xdg_positioner_v6_protocol_set_anchor
    (wl_client resource anchor : Nat) : List Effect :=
  if ((truthy (anchor &&& ZXDG_POSITIONER_V6_ANCHOR_TOP) &&
        truthy (anchor &&& ZXDG_POSITIONER_V6_ANCHOR_BOTTOM)) ||
      (truthy (anchor &&& ZXDG_POSITIONER_V6_ANCHOR_LEFT) &&
        truthy (anchor &&& ZXDG_POSITIONER_V6_ANCHOR_RIGHT))) then
    [Effect.wl_resource_post_error resource
      ZXDG_POSITIONER_V6_ERROR_INVALID_INPUT "same-axis values are not allowed"]
  else
    let tr_anchor : Nat :=
      if BIT_TEST anchor
          (ZXDG_POSITIONER_V6_ANCHOR_TOP ||| ZXDG_POSITIONER_V6_ANCHOR_LEFT) then
        XDG_POSITIONER_ANCHOR_TOP_LEFT
      else if BIT_TEST anchor
          (ZXDG_POSITIONER_V6_ANCHOR_TOP ||| ZXDG_POSITIONER_V6_ANCHOR_RIGHT) then
        XDG_POSITIONER_ANCHOR_TOP_RIGHT
      else if BIT_TEST anchor
          (ZXDG_POSITIONER_V6_ANCHOR_BOTTOM ||| ZXDG_POSITIONER_V6_ANCHOR_LEFT) then
        XDG_POSITIONER_ANCHOR_BOTTOM_LEFT
      else if BIT_TEST anchor
          (ZXDG_POSITIONER_V6_ANCHOR_BOTTOM ||| ZXDG_POSITIONER_V6_ANCHOR_RIGHT) then
        XDG_POSITIONER_ANCHOR_BOTTOM_RIGHT
      else if BIT_TEST anchor ZXDG_POSITIONER_V6_ANCHOR_TOP then
        XDG_POSITIONER_ANCHOR_TOP
      else if BIT_TEST anchor ZXDG_POSITIONER_V6_ANCHOR_BOTTOM then
        XDG_POSITIONER_ANCHOR_BOTTOM
      else if BIT_TEST anchor ZXDG_POSITIONER_V6_ANCHOR_LEFT then
        XDG_POSITIONER_ANCHOR_LEFT
      else if BIT_TEST anchor ZXDG_POSITIONER_V6_ANCHOR_RIGHT then
        XDG_POSITIONER_ANCHOR_RIGHT
      else 0
    [Effect.weston_desktop_xdg_wm_positioner_protocol_set_anchor
      wl_client resource tr_anchor]

/-- The request handler `weston_desktop_xdg_positioner_v6_protocol_set_gravity`. -/
def weston_desktop_xdg_positioner_v6_protocol_set_gravity
    (wl_client resource gravity : Nat) : List Effect :=
  if ((truthy (gravity &&& ZXDG_POSITIONER_V6_GRAVITY_TOP) &&
        truthy (gravity &&& ZXDG_POSITIONER_V6_GRAVITY_BOTTOM)) ||
      (truthy (gravity &&& ZXDG_POSITIONER_V6_GRAVITY_LEFT) &&
        truthy (gravity &&& ZXDG_POSITIONER_V6_GRAVITY_RIGHT))) then
    [Effect.wl_resource_post_error resource
      ZXDG_POSITIONER_V6_ERROR_INVALID_INPUT "same-axis values are not allowed"]
  else
    let tr_gravity : Nat :=
      if BIT_TEST gravity
          (ZXDG_POSITIONER_V6_GRAVITY_TOP ||| ZXDG_POSITIONER_V6_GRAVITY_LEFT) then
        XDG_POSITIONER_GRAVITY_TOP_LEFT
      else if BIT_TEST gravity
          (ZXDG_POSITIONER_V6_GRAVITY_TOP ||| ZXDG_POSITIONER_V6_GRAVITY_RIGHT) then
        XDG_POSITIONER_GRAVITY_TOP_RIGHT
      else if BIT_TEST gravity
          (ZXDG_POSITIONER_V6_GRAVITY_BOTTOM ||| ZXDG_POSITIONER_V6_GRAVITY_LEFT) then
        XDG_POSITIONER_GRAVITY_BOTTOM_LEFT
      else if BIT_TEST gravity
          (ZXDG_POSITIONER_V6_GRAVITY_BOTTOM ||| ZXDG_POSITIONER_V6_GRAVITY_RIGHT) then
        XDG_POSITIONER_GRAVITY_BOTTOM_RIGHT
      else if BIT_TEST gravity ZXDG_POSITIONER_V6_GRAVITY_TOP then
        XDG_POSITIONER_GRAVITY_TOP
      else if BIT_TEST gravity ZXDG_POSITIONER_V6_GRAVITY_BOTTOM then
        XDG_POSITIONER_GRAVITY_BOTTOM
      else if BIT_TEST gravity ZXDG_POSITIONER_V6_GRAVITY_LEFT then
        XDG_POSITIONER_GRAVITY_LEFT
      else if BIT_TEST gravity ZXDG_POSITIONER_V6_GRAVITY_RIGHT then
        XDG_POSITIONER_GRAVITY_RIGHT
      else 0
    [Effect.weston_desktop_xdg_wm_positioner_protocol_set_gravity
      wl_client resource tr_gravity]

/-! ## State owned by the canonical implementation -/

/-- The canonical request handlers of the stable xdg-shell implementation.
`xdg-shell.h` declares them and the source tree does not define them, so they
are parameters: arbitrary transformers of the state `σ` they own (positioner
parameters, surfaces).  Arguments are in the order of the C declarations. -/
structure CanonicalHandlers (σ : Type) where
  positioner_set_anchor : Nat → Nat → Nat → σ → σ
  positioner_set_gravity : Nat → Nat → Nat → σ → σ
  positioner_set_constraint_adjustment : Nat → Nat → Nat → σ → σ
  toplevel_resize : Nat → Nat → Nat → Nat → Nat → σ → σ

/-- What one outgoing call does to the state owned by the canonical
implementation: a canonical handler transforms it, while the libwayland calls
(protocol error, wire events) write to the client connection only. -/
def Effect.apply {σ : Type} (k : CanonicalHandlers σ) : Effect → σ → σ
  | .weston_desktop_xdg_wm_positioner_protocol_set_anchor c r a, s =>
      k.positioner_set_anchor c r a s
  | .weston_desktop_xdg_wm_positioner_protocol_set_gravity c r g, s =>
      k.positioner_set_gravity c r g s
  | .weston_desktop_xdg_wm_positioner_protocol_set_constraint_adjustment c r a, s =>
      k.positioner_set_constraint_adjustment c r a s
  | .weston_desktop_xdg_wm_toplevel_protocol_resize c r seat serial edges, s =>
      k.toplevel_resize c r seat serial edges s
  | _, s => s

/-- The state after a sequence of outgoing calls, in order. -/
def run {σ : Type} (k : CanonicalHandlers σ) (es : List Effect) (s : σ) : σ :=
  es.foldl (fun acc e => e.apply k acc) s

/-- The call is `wl_resource_post_error` with the given error code. -/
def Effect.is_post_error (code : Nat) : Effect → Bool
  | .wl_resource_post_error _ c _ => c == code
  | _ => false

/-- The call is into one of the canonical request handlers. -/
def Effect.is_canonical_call : Effect → Bool
  | .weston_desktop_xdg_wm_positioner_protocol_set_anchor _ _ _ => true
  | .weston_desktop_xdg_wm_positioner_protocol_set_gravity _ _ _ => true
  | .weston_desktop_xdg_wm_positioner_protocol_set_constraint_adjustment _ _ _ => true
  | .weston_desktop_xdg_wm_toplevel_protocol_resize _ _ _ _ _ => true
  | _ => false

/-! ## Reading of a legacy bit-flag value, in the words of the protocol -/

/-- The `top` direction bit (value 1) is set. -/
def v6_top (v : Nat) : Bool := v.testBit 0
/-- The `bottom` direction bit (value 2) is set. -/
def v6_bottom (v : Nat) : Bool := v.testBit 1
/-- The `left` direction bit (value 4) is set. -/
def v6_left (v : Nat) : Bool := v.testBit 2
/-- The `right` direction bit (value 8) is set. -/
def v6_right (v : Nat) : Bool := v.testBit 3

/-- Same-axis conflict: both `top` and `bottom`, or both `left` and `right`. -/
def v6_conflict (v : Nat) : Bool :=
  (v6_top v && v6_bottom v) || (v6_left v && v6_right v)

/-! ## Pass-through requests -/

/-- The C conversion of a 32-bit unsigned enumeration value to `int`
(two's-complement wrap-around). -/
def int_of_enum (v : Nat) : Int :=
  if v % 2 ^ 32 < 2 ^ 31 then ((v % 2 ^ 32 : Nat) : Int)
  else ((v % 2 ^ 32 : Nat) : Int) - 2 ^ 32

/-- The C conversion of an `int` to a 32-bit unsigned enumeration value
(reduction modulo `2 ^ 32`). -/
def enum_of_int (i : Int) : Nat := (i % 2 ^ 32).toNat

/-- The request handler
`weston_desktop_xdg_positioner_protocol_set_constraint_adjustment`. -/
def weston_desktop_xdg_positioner_protocol_set_constraint_adjustment
    (wl_client resource adjustment : Nat) : List Effect :=
  let tr_adjustment : Nat := enum_of_int (int_of_enum adjustment)
  [Effect.weston_desktop_xdg_wm_positioner_protocol_set_constraint_adjustment
    wl_client resource tr_adjustment]

/-- The request handler `weston_desktop_xdg_toplevel_protocol_resize`. -/
def weston_desktop_xdg_toplevel_protocol_resize
    (wl_client resource seat_resource serial edges : Nat) : List Effect :=
  let tr_edges : Nat := enum_of_int (int_of_enum edges)
  [Effect.weston_desktop_xdg_wm_toplevel_protocol_resize
    wl_client resource seat_resource serial tr_edges]

/-! ## Data model of `xdg-shell.h` -/

/-- The enumeration `enum weston_desktop_xdg_surface_role`. -/
inductive weston_desktop_xdg_surface_role where
  | WESTON_DESKTOP_XDG_SURFACE_ROLE_NONE
  | WESTON_DESKTOP_XDG_SURFACE_ROLE_TOPLEVEL
  | WESTON_DESKTOP_XDG_SURFACE_ROLE_POPUP
  deriving DecidableEq, Repr

/-- Modelled from the spec: `struct weston_geometry` of `compositor.h` (not in
the source tree), a position and a size, with the four members the source
reads. -/
structure weston_geometry where
  x : Int
  y : Int
  width : Int
  height : Int
  deriving DecidableEq, Repr

/-- Modelled from the spec: `struct weston_size` of `compositor.h` (not in the
source tree), with the two members the source reads. -/
structure weston_size where
  width : Int
  height : Int
  deriving DecidableEq, Repr

/-- The record `struct weston_desktop_xdg_surface_configure`; the list link is
the position in the owning list.  The member `serial` is a `uint32_t`: every
operation that assigns it reduces the value modulo `2 ^ 32`. -/
structure weston_desktop_xdg_surface_configure where
  serial : Nat
  deriving DecidableEq, Repr

/-- The record `struct weston_desktop_xdg_surface`.  Pointers to objects outside
this file are handles; `configure_idle` is `none` for a null pointer. -/
structure weston_desktop_xdg_surface where
  resource : Nat
  desktop : Nat
  surface : Nat
  desktop_surface : Nat
  configured : Bool
  configure_idle : Option Nat
  configure_list : List weston_desktop_xdg_surface_configure
  handlers : Nat
  has_next_geometry : Bool
  next_geometry : weston_geometry
  role : weston_desktop_xdg_surface_role
  deriving DecidableEq, Repr

/-- The record `struct weston_desktop_xdg_toplevel_state`. -/
structure weston_desktop_xdg_toplevel_state where
  maximized : Bool
  fullscreen : Bool
  resizing : Bool
  activated : Bool
  deriving DecidableEq, Repr

/-- The member `pending` of `struct weston_desktop_xdg_toplevel`. -/
structure weston_desktop_xdg_toplevel_pending where
  state : weston_desktop_xdg_toplevel_state
  size : weston_size
  deriving DecidableEq, Repr

/-- The member `next` of `struct weston_desktop_xdg_toplevel`. -/
structure weston_desktop_xdg_toplevel_next where
  state : weston_desktop_xdg_toplevel_state
  size : weston_size
  min_size : weston_size
  max_size : weston_size
  deriving DecidableEq, Repr

/-- The member `current` of `struct weston_desktop_xdg_toplevel`. -/
structure weston_desktop_xdg_toplevel_current where
  state : weston_desktop_xdg_toplevel_state
  min_size : weston_size
  max_size : weston_size
  deriving DecidableEq, Repr

/-- The record `struct weston_desktop_xdg_toplevel`. -/
structure weston_desktop_xdg_toplevel where
  base : weston_desktop_xdg_surface
  resource : Nat
  added : Bool
  pending : weston_desktop_xdg_toplevel_pending
  next : weston_desktop_xdg_toplevel_next
  current : weston_desktop_xdg_toplevel_current
  deriving DecidableEq, Repr

/-- The record `struct weston_desktop_xdg_popup`; `parent` and `seat` are `none`
for a null pointer. -/
structure weston_desktop_xdg_popup where
  base : weston_desktop_xdg_surface
  resource : Nat
  committed : Bool
  parent : Option Nat
  seat : Option Nat
  geometry : weston_geometry
  deriving DecidableEq, Repr

/-! ## Event emitters of the legacy dialect

Each takes its object by pointer; the embedding returns the object as the
function leaves it, together with the outgoing calls.  Freeing or destroying an
object would be an outgoing call of its own. -/

/-- The event emitter `weston_desktop_xdg_post_popup_configure`. -/
def weston_desktop_xdg_post_popup_configure (popup : weston_desktop_xdg_popup) :
    weston_desktop_xdg_popup × List Effect :=
  (popup, [Effect.zxdg_popup_v6_send_configure popup.resource
    popup.geometry.x popup.geometry.y popup.geometry.width popup.geometry.height])

/-- The event emitter `weston_desktop_xdg_post_toplevel_configure`. -/
def weston_desktop_xdg_post_toplevel_configure
    (toplevel : weston_desktop_xdg_toplevel) (states : List Nat) :
    weston_desktop_xdg_toplevel × List Effect :=
  (toplevel, [Effect.zxdg_toplevel_v6_send_configure toplevel.resource
    toplevel.pending.size.width toplevel.pending.size.height states])

/-- The event emitter `weston_desktop_xdg_post_toplevel_close`. -/
def weston_desktop_xdg_post_toplevel_close (toplevel : weston_desktop_xdg_toplevel) :
    weston_desktop_xdg_toplevel × List Effect :=
  (toplevel, [Effect.zxdg_toplevel_v6_send_close toplevel.resource])

/-- The event emitter `weston_desktop_xdg_post_popup_close`. -/
def weston_desktop_xdg_post_popup_close (popup : weston_desktop_xdg_popup) :
    weston_desktop_xdg_popup × List Effect :=
  (popup, [Effect.zxdg_popup_v6_send_popup_done popup.resource])

/-- The event emitter `weston_desktop_xdg_post_ping`. -/
def weston_desktop_xdg_post_ping (resource serial : Nat) : List Effect :=
  [Effect.zxdg_shell_v6_send_ping resource serial]

/-! ## The capability table of a desktop surface -/

/-- The functions of the canonical implementation that the capability table
points to; `xdg-shell.h` declares them. -/
inductive CanonicalFunction where
  | weston_desktop_xdg_wm_toplevel_set_maximized
  | weston_desktop_xdg_wm_toplevel_set_fullscreen
  | weston_desktop_xdg_wm_toplevel_set_resizing
  | weston_desktop_xdg_wm_toplevel_set_activated
  | weston_desktop_xdg_wm_toplevel_set_size
  | weston_desktop_xdg_wm_toplevel_get_maximized
  | weston_desktop_xdg_wm_toplevel_get_fullscreen
  | weston_desktop_xdg_wm_toplevel_get_resizing
  | weston_desktop_xdg_wm_toplevel_get_activated
  | weston_desktop_xdg_wm_popup_update_position
  | weston_desktop_xdg_wm_surface_committed
  | weston_desktop_xdg_wm_surface_ping
  | weston_desktop_xdg_wm_surface_close
  | weston_desktop_xdg_wm_surface_destroy
  deriving DecidableEq, Repr

/-- Modelled from the spec: `struct weston_desktop_surface_implementation` of
`internal.h` (not in the source tree), with the members the initialiser in
`xdg-shell-v6.c` names.  A member is `none` when the function pointer is null,
that is, when the table does not contain the operation. -/
structure weston_desktop_surface_implementation where
  set_maximized : Option CanonicalFunction
  set_fullscreen : Option CanonicalFunction
  set_resizing : Option CanonicalFunction
  set_activated : Option CanonicalFunction
  set_size : Option CanonicalFunction
  get_maximized : Option CanonicalFunction
  get_fullscreen : Option CanonicalFunction
  get_resizing : Option CanonicalFunction
  get_activated : Option CanonicalFunction
  update_position : Option CanonicalFunction
  committed : Option CanonicalFunction
  ping : Option CanonicalFunction
  close : Option CanonicalFunction
  destroy : Option CanonicalFunction
  deriving DecidableEq, Repr

/-- The static table `weston_desktop_xdg_surface_internal_implementation`. -/
def weston_desktop_xdg_surface_internal_implementation :
    weston_desktop_surface_implementation where
  /- These are used for toplevel only -/
  set_maximized := some .weston_desktop_xdg_wm_toplevel_set_maximized
  set_fullscreen := some .weston_desktop_xdg_wm_toplevel_set_fullscreen
  set_resizing := some .weston_desktop_xdg_wm_toplevel_set_resizing
  set_activated := some .weston_desktop_xdg_wm_toplevel_set_activated
  set_size := some .weston_desktop_xdg_wm_toplevel_set_size
  get_maximized := some .weston_desktop_xdg_wm_toplevel_get_maximized
  get_fullscreen := some .weston_desktop_xdg_wm_toplevel_get_fullscreen
  get_resizing := some .weston_desktop_xdg_wm_toplevel_get_resizing
  get_activated := some .weston_desktop_xdg_wm_toplevel_get_activated
  /- These are used for popup only -/
  update_position := some .weston_desktop_xdg_wm_popup_update_position
  /- Common API -/
  committed := some .weston_desktop_xdg_wm_surface_committed
  ping := some .weston_desktop_xdg_wm_surface_ping
  close := some .weston_desktop_xdg_wm_surface_close
  destroy := some .weston_desktop_xdg_wm_surface_destroy

/-- The top-level operations of a capability table: the setters
`set_maximized`, `set_fullscreen`, `set_resizing`, `set_activated`, `set_size`
and the matching getters. -/
def weston_desktop_surface_implementation.toplevel_operations
    (t : weston_desktop_surface_implementation) : List (Option CanonicalFunction) :=
  [t.set_maximized, t.set_fullscreen, t.set_resizing, t.set_activated, t.set_size,
   t.get_maximized, t.get_fullscreen, t.get_resizing, t.get_activated]

/-- The table contains at least one top-level operation. -/
def weston_desktop_surface_implementation.has_toplevel_operation
    (t : weston_desktop_surface_implementation) : Bool :=
  t.toplevel_operations.any Option.isSome

/-- The table contains every top-level operation. -/
def weston_desktop_surface_implementation.has_all_toplevel_operations
    (t : weston_desktop_surface_implementation) : Bool :=
  t.toplevel_operations.all Option.isSome

/-- The table contains `update_position`. -/
def weston_desktop_surface_implementation.has_update_position
    (t : weston_desktop_surface_implementation) : Bool :=
  t.update_position.isSome

/-- The reading of a capability table that is specific to one role: top-level
operations are present only if the role is top-level, and `update_position` is
present only if the role is popup. -/
def weston_desktop_surface_implementation.role_specific
    (t : weston_desktop_surface_implementation)
    (role : weston_desktop_xdg_surface_role) : Prop :=
  (t.has_toplevel_operation = true →
    role = .WESTON_DESKTOP_XDG_SURFACE_ROLE_TOPLEVEL) ∧
  (t.has_update_position = true →
    role = .WESTON_DESKTOP_XDG_SURFACE_ROLE_POPUP)

/-! ## The handler table -/

/-- The static objects the data-pointer members of the legacy handler table
point to. -/
inductive StaticObject where
  | zxdg_toplevel_v6_interface
  | weston_desktop_xdg_toplevel_implementation
  | zxdg_popup_v6_interface
  | weston_desktop_xdg_popup_implementation
  | zxdg_surface_v6_interface
  | weston_desktop_xdg_surface_implementation
  | zxdg_positioner_v6_interface
  | weston_desktop_xdg_positioner_implementation
  deriving DecidableEq, Repr

/-- The record `struct weston_desktop_xdg_handlers`: five pointers to event
emitters, then the pointers to the per-generation interfaces and request
tables. -/
structure weston_desktop_xdg_handlers where
  post_popup_configure :
    weston_desktop_xdg_popup → weston_desktop_xdg_popup × List Effect
  post_toplevel_configure :
    weston_desktop_xdg_toplevel → List Nat → weston_desktop_xdg_toplevel × List Effect
  post_toplevel_close :
    weston_desktop_xdg_toplevel → weston_desktop_xdg_toplevel × List Effect
  post_popup_close :
    weston_desktop_xdg_popup → weston_desktop_xdg_popup × List Effect
  post_ping : Nat → Nat → List Effect
  desktop_surface_impl : weston_desktop_surface_implementation
  toplevel_iface : StaticObject
  toplevel_impl : StaticObject
  popup_iface : StaticObject
  popup_impl : StaticObject
  surface_iface : StaticObject
  surface_impl : StaticObject
  positioner_iface : StaticObject
  positioner_impl : StaticObject

/-- The static table `desktop_xdg_handlers` of the legacy dialect. -/
def desktop_xdg_handlers : weston_desktop_xdg_handlers where
  post_popup_configure := weston_desktop_xdg_post_popup_configure
  post_toplevel_configure := weston_desktop_xdg_post_toplevel_configure
  post_toplevel_close := weston_desktop_xdg_post_toplevel_close
  post_popup_close := weston_desktop_xdg_post_popup_close
  post_ping := weston_desktop_xdg_post_ping
  toplevel_iface := .zxdg_toplevel_v6_interface
  toplevel_impl := .weston_desktop_xdg_toplevel_implementation
  popup_iface := .zxdg_popup_v6_interface
  popup_impl := .weston_desktop_xdg_popup_implementation
  surface_iface := .zxdg_surface_v6_interface
  surface_impl := .weston_desktop_xdg_surface_implementation
  desktop_surface_impl := weston_desktop_xdg_surface_internal_implementation
  positioner_iface := .zxdg_positioner_v6_interface
  positioner_impl := .weston_desktop_xdg_positioner_implementation

/-- The members of `struct weston_desktop_xdg_handlers`, by name. -/
inductive handlers_member where
  | post_popup_configure
  | post_toplevel_configure
  | post_toplevel_close
  | post_popup_close
  | post_ping
  | desktop_surface_impl
  | toplevel_iface
  | toplevel_impl
  | popup_iface
  | popup_impl
  | surface_iface
  | surface_impl
  | positioner_iface
  | positioner_impl
  deriving DecidableEq, Repr

/-- The member is declared as a pointer to a function (`void (*m)(...)`), an
event-emission operation, and not as a pointer to data. -/
def handlers_member.is_function_pointer : handlers_member → Bool
  | .post_popup_configure => true
  | .post_toplevel_configure => true
  | .post_toplevel_close => true
  | .post_popup_close => true
  | .post_ping => true
  | _ => false

/-- The identifier of the member in the C declaration. -/
def handlers_member.ident : handlers_member → String
  | .post_popup_configure => "post_popup_configure"
  | .post_toplevel_configure => "post_toplevel_configure"
  | .post_toplevel_close => "post_toplevel_close"
  | .post_popup_close => "post_popup_close"
  | .post_ping => "post_ping"
  | .desktop_surface_impl => "desktop_surface_impl"
  | .toplevel_iface => "toplevel_iface"
  | .toplevel_impl => "toplevel_impl"
  | .popup_iface => "popup_iface"
  | .popup_impl => "popup_impl"
  | .surface_iface => "surface_iface"
  | .surface_impl => "surface_impl"
  | .positioner_iface => "positioner_iface"
  | .positioner_impl => "positioner_impl"

/-- The members of `struct weston_desktop_xdg_handlers` in declaration order. -/
def weston_desktop_xdg_handlers_members : List handlers_member :=
  [.post_popup_configure, .post_toplevel_configure, .post_toplevel_close,
   .post_popup_close, .post_ping,
   .desktop_surface_impl, .toplevel_iface, .toplevel_impl, .popup_iface,
   .popup_impl, .surface_iface, .surface_impl, .positioner_iface,
   .positioner_impl]

/-- The event-emission operations of the handler table: its function-pointer
members, by identifier. -/
def weston_desktop_xdg_handlers_event_operations : List String :=
  (weston_desktop_xdg_handlers_members.filter handlers_member.is_function_pointer).map
    handlers_member.ident

/-! ## The surface-role state machine

`xdg-shell.h` declares the request handlers of the state machine
(`get_toplevel`, `get_popup`, `ack_configure`); they are defined in
`xdg-shell.c`, which is not in the source tree. -/

/-- Modelled from the spec: the protocol errors the state machine reports to the
client (error taxonomy, section 7).  The code that posts them is in
`xdg-shell.c`, which is not in the source tree. -/
inductive ProtocolError where
  | RoleConflict
  | InvalidSerial
  | InvalidInput
  deriving DecidableEq, Repr

/-- Modelled from the spec: `assign_role(surface, role)` of section 4.1, the
role assignment done by `get_toplevel` and `get_popup` in `xdg-shell.c` (not in
the source tree).  It fails with `RoleConflict` if the surface already has a
role, or if the underlying generic surface already carries an incompatible role
from another protocol extension (`foreign_role`); a rejected request leaves the
surface untouched.  The second component is `none` on success. -/
def weston_desktop_xdg_surface.assign_role (surface : weston_desktop_xdg_surface)
    (role : weston_desktop_xdg_surface_role) (foreign_role : Bool) :
    weston_desktop_xdg_surface × Option ProtocolError :=
  if surface.role ≠ .WESTON_DESKTOP_XDG_SURFACE_ROLE_NONE then
    (surface, some .RoleConflict)
  else if foreign_role then
    (surface, some .RoleConflict)
  else
    ({ surface with role := role }, none)

/-- Modelled from the spec: the request handler
`weston_desktop_xdg_wm_surface_protocol_get_toplevel`, declared in `xdg-shell.h`
and defined in `xdg-shell.c` (not in the source tree), as the assignment of the
top-level role. -/
def weston_desktop_xdg_wm_surface_protocol_get_toplevel
    (surface : weston_desktop_xdg_surface) (foreign_role : Bool) :
    weston_desktop_xdg_surface × Option ProtocolError :=
  surface.assign_role .WESTON_DESKTOP_XDG_SURFACE_ROLE_TOPLEVEL foreign_role

/-- Modelled from the spec: the request handler
`weston_desktop_xdg_wm_surface_protocol_get_popup`, declared in `xdg-shell.h`
and defined in `xdg-shell.c` (not in the source tree), as the assignment of the
popup role. -/
def weston_desktop_xdg_wm_surface_protocol_get_popup
    (surface : weston_desktop_xdg_surface) (foreign_role : Bool) :
    weston_desktop_xdg_surface × Option ProtocolError :=
  surface.assign_role .WESTON_DESKTOP_XDG_SURFACE_ROLE_POPUP foreign_role

/-- A role-assignment attempt of a client: which request, and whether the
generic surface carries an incompatible foreign role at that moment. -/
inductive role_request where
  | get_toplevel (foreign_role : Bool)
  | get_popup (foreign_role : Bool)
  deriving DecidableEq, Repr

/-- One role-assignment attempt applied to a surface. -/
def role_request.apply (q : role_request) (surface : weston_desktop_xdg_surface) :
    weston_desktop_xdg_surface × Option ProtocolError :=
  match q with
  | .get_toplevel f => weston_desktop_xdg_wm_surface_protocol_get_toplevel surface f
  | .get_popup f => weston_desktop_xdg_wm_surface_protocol_get_popup surface f

/-- A sequence of role-assignment attempts applied in order: the final surface
and the outcome of every attempt. -/
def run_role_requests (surface : weston_desktop_xdg_surface) :
    List role_request → weston_desktop_xdg_surface × List (Option ProtocolError)
  | [] => (surface, [])
  | q :: qs =>
      let r := q.apply surface
      let rest := run_role_requests r.1 qs
      (rest.1, r.2 :: rest.2)

/-- The record `struct weston_desktop_xdg_toplevel_configure`. -/
structure weston_desktop_xdg_toplevel_configure where
  base : weston_desktop_xdg_surface_configure
  state : weston_desktop_xdg_toplevel_state
  size : weston_size
  deriving DecidableEq, Repr

/-- Modelled from the spec: the queue part of `ack_configure` (section 4.1,
defined in `xdg-shell.c`, not in the source tree): pop entries from the front of
the queue up to and including the entry with the matching serial. -/
def pop_through {α : Type} (serial_of : α → Nat) (serial : Nat) : List α → List α
  | [] => []
  | c :: cs => if serial_of c = serial then cs else pop_through serial_of serial cs

/-- Modelled from the spec: the process-wide serial counter of the display
(section 4.1; the counter itself is kept by libwayland, outside the source
tree).  Serials are 32-bit unsigned integers, as the `uint32_t serial` member of
`struct weston_desktop_xdg_surface_configure` has them, so the serial handed out
after `serial` is its successor modulo `2 ^ 32`. -/
def next_serial (serial : Nat) : Nat := (serial + 1) % 2 ^ 32

/-- Modelled from the spec: a surface of the state machine of section 4.1
(`xdg-shell.c`, not in the source tree), whatever its role: the process-wide
32-bit serial counter of the display (the last serial handed out) and the
surface object, whose `configure_list` is the queue of Configure Requests in
send order. -/
structure surface_machine where
  display_serial : Nat
  surface : weston_desktop_xdg_surface
  deriving DecidableEq, Repr

/-- Modelled from the spec: a surface just created, with an empty queue of
Configure Requests, the last serial the display handed out being
`display_serial` as a 32-bit value. -/
def surface_machine.init (display_serial : Nat) (surface : weston_desktop_xdg_surface) :
    surface_machine where
  display_serial := display_serial % 2 ^ 32
  surface := { surface with configure_list := [] }

/-- The outcome of one operation on a surface: the state after it and the
protocol error it reported, if any. -/
structure surface_step where
  machine : surface_machine
  error : Option ProtocolError
  deriving DecidableEq, Repr

/-- Modelled from the spec: the display hands out a serial to some other object
(serials are process-wide). -/
def surface_machine.other_serial (m : surface_machine) : surface_step where
  machine := { m with display_serial := next_serial m.display_serial }
  error := none

/-- Modelled from the spec: the part of `flush_pending_configure(surface)` of
section 4.1 (`xdg-shell.c`, not in the source tree) that is common to every
role: take a new serial from the display and push a Configure Request with that
serial onto the queue of the surface.  The state snapshot and the event are
specific to the role. -/
def surface_machine.flush_pending_configure (m : surface_machine) : surface_step :=
  let serial := next_serial m.display_serial
  { machine :=
      { display_serial := serial,
        surface := { m.surface with
          configure_list := m.surface.configure_list ++ [{ serial := serial }] } },
    error := none }

/-- Modelled from the spec: the part of `ack_configure(surface, serial)` of
section 4.1 (`xdg-shell.c`, not in the source tree) that is common to every
role.  It fails with `InvalidSerial`, leaving all state untouched, if no queued
entry has the given serial.  Otherwise it pops the queue up to and including
that entry and marks the surface configured. -/
def surface_machine.ack_configure (m : surface_machine) (serial : Nat) : surface_step :=
  match m.surface.configure_list.find? (fun c => c.serial == serial) with
  | none => { machine := m, error := some .InvalidSerial }
  | some _ =>
      { machine :=
          { m with
            surface := { m.surface with
              configured := true,
              configure_list :=
                pop_through weston_desktop_xdg_surface_configure.serial serial
                  m.surface.configure_list } },
        error := none }

/-- The operations of the state machine on the queue of one surface. -/
inductive surface_op where
  | other_serial
  | flush_pending_configure
  | ack_configure (serial : Nat)
  deriving DecidableEq, Repr

/-- One operation applied to a surface. -/
def surface_op.apply (op : surface_op) (m : surface_machine) : surface_step :=
  match op with
  | .other_serial => m.other_serial
  | .flush_pending_configure => m.flush_pending_configure
  | .ack_configure serial => m.ack_configure serial

/-- The serials of the queued Configure Requests of a surface, in queue order. -/
def surface_machine.queued_serials (m : surface_machine) : List Nat :=
  m.surface.configure_list.map weston_desktop_xdg_surface_configure.serial

/-- The invariant of the queue of a surface while the serial counter has not
wrapped around: serials strictly increase along the queue and none exceeds the
last serial the display handed out. -/
def surface_machine.queue_ok (m : surface_machine) : Prop :=
  m.queued_serials.Pairwise (· < ·) ∧
  (∀ s ∈ m.queued_serials, s ≤ m.display_serial)

/-- Modelled from the spec: a top-level surface of the state machine of section
4.1 (`xdg-shell.c`, not in the source tree): the process-wide 32-bit serial
counter of the display (the last serial handed out), the toplevel object, and
its queue of Configure Requests in send order (the role-specific records behind
the links of `toplevel.base.configure_list`). -/
structure toplevel_machine where
  display_serial : Nat
  toplevel : weston_desktop_xdg_toplevel
  configures : List weston_desktop_xdg_toplevel_configure
  deriving DecidableEq, Repr

/-- Modelled from the spec: a toplevel just created, with an empty queue of
Configure Requests, the last serial the display handed out being
`display_serial` as a 32-bit value. -/
def toplevel_machine.init (display_serial : Nat) (toplevel : weston_desktop_xdg_toplevel) :
    toplevel_machine where
  display_serial := display_serial % 2 ^ 32
  toplevel := { toplevel with base := { toplevel.base with configure_list := [] } }
  configures := []

/-- The outcome of one operation of the state machine: the state after it, the
outgoing calls it made, and the protocol error it reported, if any. -/
structure machine_step where
  machine : toplevel_machine
  events : List Effect
  error : Option ProtocolError

/-- Modelled from the spec: the display hands out a serial to some other object
(serials are process-wide). -/
def toplevel_machine.other_serial (m : toplevel_machine) : machine_step where
  machine := { m with display_serial := next_serial m.display_serial }
  events := []
  error := none

/-- Modelled from the spec: `request_configure(surface, state_delta)` of section
4.1 (`xdg-shell.c`, not in the source tree): the requested state and size become
the pending ones; nothing is sent. -/
def toplevel_machine.request_configure (m : toplevel_machine)
    (state : weston_desktop_xdg_toplevel_state) (size : weston_size) : machine_step where
  machine := { m with toplevel := { m.toplevel with pending := { state := state, size := size } } }
  events := []
  error := none

/-- Modelled from the spec: `flush_pending_configure(surface)` of section 4.1
(`xdg-shell.c`, not in the source tree): copy `pending` into `next`, take a new
serial from the display, push a Configure Request with the captured state onto
the queue, and emit the configure event through the registered handler table.
`states` is the array of state values the absent code builds for the event. -/
def toplevel_machine.flush_pending_configure (m : toplevel_machine)
    (handlers : weston_desktop_xdg_handlers) (states : List Nat) : machine_step :=
  let serial := next_serial m.display_serial
  let configure : weston_desktop_xdg_toplevel_configure :=
    { base := { serial := serial },
      state := m.toplevel.pending.state,
      size := m.toplevel.pending.size }
  let toplevel : weston_desktop_xdg_toplevel :=
    { m.toplevel with
      next := { m.toplevel.next with
        state := m.toplevel.pending.state, size := m.toplevel.pending.size },
      base := { m.toplevel.base with
        configure_list := m.toplevel.base.configure_list ++ [configure.base] } }
  let sent := handlers.post_toplevel_configure toplevel states
  { machine := { display_serial := serial, toplevel := sent.1,
                 configures := m.configures ++ [configure] },
    events := sent.2,
    error := none }

/-- Modelled from the spec: `ack_configure(surface, serial)` of section 4.1, the
request handler `weston_desktop_xdg_wm_surface_protocol_ack_configure` declared
in `xdg-shell.h` and defined in `xdg-shell.c` (not in the source tree).  It fails
with `InvalidSerial`, leaving all state untouched, if no queued entry has the
given serial.  Otherwise it pops the queue up to and including that entry,
replaces the state of `current` by the state captured in the entry, and marks
the surface configured. -/
def toplevel_machine.ack_configure (m : toplevel_machine) (serial : Nat) : machine_step :=
  match m.configures.find? (fun c => c.base.serial == serial) with
  | none => { machine := m, events := [], error := some .InvalidSerial }
  | some entry =>
      { machine :=
          { m with
            toplevel :=
              { m.toplevel with
                current := { m.toplevel.current with state := entry.state },
                base := { m.toplevel.base with
                  configured := true,
                  configure_list :=
                    pop_through weston_desktop_xdg_surface_configure.serial serial
                      m.toplevel.base.configure_list } },
            configures := pop_through (fun c => c.base.serial) serial m.configures },
        events := [],
        error := none }

/-- The operations of the state machine on one toplevel, as a client and the
compositor drive it. -/
inductive toplevel_op where
  | other_serial
  | request_configure (state : weston_desktop_xdg_toplevel_state) (size : weston_size)
  | flush_pending_configure (states : List Nat)
  | ack_configure (serial : Nat)
  deriving DecidableEq, Repr

/-- One operation applied to the machine, events going through the legacy
handler table. -/
def toplevel_op.apply (op : toplevel_op) (m : toplevel_machine) : machine_step :=
  match op with
  | .other_serial => m.other_serial
  | .request_configure state size => m.request_configure state size
  | .flush_pending_configure states => m.flush_pending_configure desktop_xdg_handlers states
  | .ack_configure serial => m.ack_configure serial

/-- The state after a sequence of operations, in order. -/
def run_toplevel_ops (m : toplevel_machine) (ops : List toplevel_op) : toplevel_machine :=
  ops.foldl (fun acc op => (op.apply acc).machine) m

/-- The serials of the queued Configure Requests, in queue order. -/
def toplevel_machine.queued_serials (m : toplevel_machine) : List Nat :=
  m.configures.map (fun c => c.base.serial)

/-- The invariant of the queue while the serial counter has not wrapped around:
serials strictly increase along the queue, none exceeds the last serial the
display handed out, and the surface's list holds the base records of the queued
Configure Requests. -/
def toplevel_machine.queue_ok (m : toplevel_machine) : Prop :=
  m.queued_serials.Pairwise (· < ·) ∧
  (∀ s ∈ m.queued_serials, s ≤ m.display_serial) ∧
  m.toplevel.base.configure_list = m.configures.map (fun c => c.base)

/-- A surface without a role and with an empty queue, for concrete runs. -/
def sample_surface : weston_desktop_xdg_surface where
  resource := 11
  desktop := 1
  surface := 2
  desktop_surface := 3
  configured := false
  configure_idle := none
  configure_list := []
  handlers := 4
  has_next_geometry := false
  next_geometry := { x := 0, y := 0, width := 0, height := 0 }
  role := .WESTON_DESKTOP_XDG_SURFACE_ROLE_NONE

/-- A toplevel on `sample_surface` with a pending size of 640 by 480 and the
pending state maximized, for concrete runs. -/
def sample_toplevel : weston_desktop_xdg_toplevel where
  base := { sample_surface with role := .WESTON_DESKTOP_XDG_SURFACE_ROLE_TOPLEVEL }
  resource := 12
  added := true
  pending :=
    { state := { maximized := true, fullscreen := false, resizing := false,
                 activated := false },
      size := { width := 640, height := 480 } }
  next :=
    { state := { maximized := false, fullscreen := false, resizing := false,
                 activated := false },
      size := { width := 0, height := 0 },
      min_size := { width := 0, height := 0 },
      max_size := { width := 0, height := 0 } }
  current :=
    { state := { maximized := false, fullscreen := false, resizing := false,
                 activated := false },
      min_size := { width := 0, height := 0 },
      max_size := { width := 0, height := 0 } }

/-! ## Session launchers

The launchers of `libweston` (`launcher-ck2.c`, `launcher-direct.c`,
`launcher-loginw.c`).  A launcher function is embedded as a function of the
launcher object and of the results the environment gives to its library and
system calls; it returns the object as it leaves it and the calls that reach
outside the process (D-Bus messages sent, signals emitted, system calls, log
lines), in order.  Building and releasing a D-Bus message stays inside the
process and is not recorded; whether it succeeds is a result of the
environment. -/

/-- The operating system the file is compiled for (`__linux__`, `__FreeBSD__`). -/
inductive Platform where
  | linux
  | freebsd
  deriving DecidableEq, Repr

/-- Modelled from the spec: the constant O_NONBLOCK of the system header
fcntl.h, which is not in the source tree; the non-blocking flag of a file
descriptor on each platform. -/
def O_NONBLOCK : Platform → Nat
  | .linux => 2048
  | .freebsd => 4

/-- Modelled from the spec: the constant ENOMEM of the system header errno.h,
which is not in the source tree. -/
def ENOMEM : Int := 12

/-- Modelled from the spec: the constant ENODEV of the system header errno.h,
which is not in the source tree. -/
def ENODEV : Int := 19

/-- The constant `DRM_MAJOR` that `launcher-ck2.c` and `launcher-direct.c`
define. -/
def DRM_MAJOR : Nat := 226

/-- Modelled from the spec: the modes of `KDSETMODE` (system header, not in the
source tree) that the launchers pass. -/
inductive kd_mode where
  | KD_TEXT
  | KD_GRAPHICS
  deriving DecidableEq, Repr

/-- Modelled from the spec: the modes of `struct vt_mode` (system header, not in
the source tree) that the launchers pass. -/
inductive vt_mode where
  | VT_AUTO
  | VT_PROCESS
  deriving DecidableEq, Repr

/-- The ioctl requests of the restore functions, each with its argument. -/
inductive ioctl_request where
  | KDSKBMUTE (value : Int)
  | KDSKBMODE (kb_mode : Int)
  | KDSETMODE (mode : kd_mode)
  | VT_SETMODE (mode : vt_mode)
  deriving DecidableEq, Repr

/-- One call of a launcher that reaches outside the process, with its arguments.
A D-Bus message is given by its destination, object path, interface, method and
the unsigned arguments appended to it. -/
inductive LauncherEffect where
  | weston_log (msg : String)
  | wl_signal_emit_session_signal
  | dbus_connection_send (dbus : Nat) (destination path iface method : String)
      (args : List Nat)
  | dbus_connection_send_with_reply_and_block (dbus : Nat)
      (destination path iface method : String) (args : List Nat)
  | stat (path : String)
  | fcntl_getfl (fd : Int)
  | fcntl_setfl (fd : Int) (fl : Int)
  | close (fd : Int)
  | ioctl (fd : Int) (request : ioctl_request)
  | tcgetattr (fd : Int)
  | tcsetattr (fd : Int)
  | drmDropMaster (fd : Int)
  deriving DecidableEq, Repr

/-- Modelled from the spec: the member of `struct weston_compositor`
(`compositor.h`, not in the source tree) that the launchers read and write,
`session_active`; the signal `session_signal` is emitted as an outgoing call. -/
structure weston_compositor where
  session_active : Int
  deriving DecidableEq, Repr

/-- The record `struct launcher_ck2`, with the compositor it points to. -/
structure launcher_ck2 where
  base : Nat
  compositor : weston_compositor
  sync_drm : Bool
  seat : String
  sid : String
  vtnr : Nat
  vt : Int
  kb_mode : Int
  ckit : Nat
  dbus : Nat
  dbus_ctx : Nat
  pending_active : Option Nat
  deriving DecidableEq, Repr

/-- What libdbus answers while a method call is built: whether
`dbus_message_new_method_call` returned a message and whether
`dbus_message_append_args` succeeded. -/
structure dbus_build where
  new_method_call : Bool
  append_args : Bool
  deriving DecidableEq, Repr

/-- The function `launcher_ck2_release_device`. -/
def launcher_ck2_release_device (wl : launcher_ck2) (build : dbus_build)
    (major minor : Nat) : List LauncherEffect :=
  if build.new_method_call then
    if build.append_args then
      [LauncherEffect.dbus_connection_send wl.dbus "org.freedesktop.ConsoleKit" wl.sid
        "org.freedesktop.ConsoleKit.Session" "ReleaseDevice" [major, minor]]
    else []
  else []

/-- The function `launcher_ck2_pause_device_complete`. -/
def launcher_ck2_pause_device_complete (wl : launcher_ck2) (build : dbus_build)
    (major minor : Nat) : List LauncherEffect :=
  if build.new_method_call then
    if build.append_args then
      [LauncherEffect.dbus_connection_send wl.dbus "org.freedesktop.ConsoleKit" wl.sid
        "org.freedesktop.ConsoleKit.Session" "PauseDeviceComplete" [major, minor]]
    else []
  else []

/-- The function `launcher_ck2_set_active`. -/
def launcher_ck2_set_active (wl : launcher_ck2) (active : Bool) :
    launcher_ck2 × List LauncherEffect :=
  if (wl.compositor.session_active == 0) == (!active) then
    (wl, [])
  else
    ({ wl with compositor := { wl.compositor with
        session_active := if active then 1 else 0 } },
     [LauncherEffect.wl_signal_emit_session_signal])

/-- The argument under a D-Bus message iterator, as far as `parse_active` looks
at it: a boolean, a variant with the value it contains, or anything else. -/
inductive DBusValue where
  | boolean (b : Bool)
  | variant (inner : DBusValue)
  | other
  deriving DecidableEq, Repr

/-- The function `parse_active`; `iter` is the argument the iterator points at. -/
def parse_active (wl : launcher_ck2) (iter : DBusValue) :
    launcher_ck2 × List LauncherEffect :=
  match iter with
  | .variant sub =>
    match sub with
    | .boolean b =>
      if !wl.sync_drm || !b then launcher_ck2_set_active wl b else (wl, [])
    | _ => (wl, [])
  | _ => (wl, [])

/-- The function `device_paused`; `m` is what `dbus_message_get_args` reads from
the signal, `none` when it does not parse, otherwise major, minor and type. -/
def device_paused (wl : launcher_ck2) (build : dbus_build)
    (m : Option (Nat × Nat × String)) : launcher_ck2 × List LauncherEffect :=
  match m with
  | none => (wl, [LauncherEffect.weston_log "ck2: cannot parse PauseDevice dbus signal\n"])
  | some (major, minor, type) =>
    let ack :=
      if type == "pause" then launcher_ck2_pause_device_complete wl build major minor
      else []
    let slept :=
      if wl.sync_drm /- && major == DRM_MAJOR -/ then launcher_ck2_set_active wl false
      else (wl, [])
    (slept.1, ack ++ slept.2)

/-- The function `device_resumed`; `m` is what `dbus_message_get_args` reads
from the signal, `none` when it does not parse, otherwise the major number. -/
def device_resumed (wl : launcher_ck2) (m : Option Nat) :
    launcher_ck2 × List LauncherEffect :=
  match m with
  | none => (wl, [LauncherEffect.weston_log "ck2: cannot parse ResumeDevice dbus signal\n"])
  | some _major =>
    if wl.sync_drm /- && major == DRM_MAJOR -/ then launcher_ck2_set_active wl true
    else (wl, [])

/-- The session is active: `session_active` is non-zero. -/
def launcher_ck2.session_is_active (wl : launcher_ck2) : Bool :=
  wl.compositor.session_active != 0

/-- The `PauseDeviceComplete` messages among the outgoing calls, each as its
list of arguments. -/
def pause_device_complete_sent : List LauncherEffect → List (List Nat)
  | [] => []
  | .dbus_connection_send _ _ _ _ method args :: es =>
      if method == "PauseDeviceComplete" then args :: pause_device_complete_sent es
      else pause_device_complete_sent es
  | _ :: es => pause_device_complete_sent es

/-- A launcher in a session that is active, with DRM synchronisation requested,
for concrete runs. -/
def sample_launcher_ck2 : launcher_ck2 where
  base := 0
  compositor := { session_active := 1 }
  sync_drm := true
  seat := "seat0"
  sid := "/org/freedesktop/ConsoleKit/Session2"
  vtnr := 9
  vt := 9
  kb_mode := 3
  ckit := 1
  dbus := 2
  dbus_ctx := 3
  pending_active := none

/-- What `launcher_ck2_open` reads of the `struct stat` that `stat` fills in:
`S_ISCHR(st.st_mode)` and the major and minor numbers of `st.st_rdev`. -/
structure stat_result where
  is_chr : Bool
  major : Nat
  minor : Nat
  deriving DecidableEq, Repr

/-- The results the environment gives to the calls of `launcher_ck2_open`.
`stat` is `none` when `stat` fails.  `take_reply` is `none` when the blocking
`TakeDevice` call gets no reply, `some none` when the reply does not parse, and
otherwise the descriptor and the paused flag of the reply.  `getfl` and `setfl`
are the return values of the two `fcntl` calls, with the `errno` each leaves on
failure. -/
structure ck2_open_env where
  stat : Option stat_result
  take_build : dbus_build
  take_reply : Option (Option (Int × Bool))
  getfl : Int
  getfl_errno : Int
  setfl : Int
  setfl_errno : Int
  release_build : dbus_build
  deriving DecidableEq, Repr

/-- The function `launcher_ck2_take_device`, called with a null `paused_out`:
its return value and its outgoing calls. -/
def launcher_ck2_take_device (wl : launcher_ck2) (env : ck2_open_env)
    (major minor : Nat) : Int × List LauncherEffect :=
  if !env.take_build.new_method_call then
    (-ENOMEM, [])
  else if !env.take_build.append_args then
    (-ENOMEM, [])
  else
    let call := LauncherEffect.dbus_connection_send_with_reply_and_block wl.dbus
      "org.freedesktop.ConsoleKit" wl.sid "org.freedesktop.ConsoleKit.Session"
      "TakeDevice" [major, minor]
    match env.take_reply with
    | none => (-ENODEV, [call])
    | some none => (-ENODEV, [call])
    | some (some (fd, _paused)) => (fd, [call])

/-- The outcome of `launcher_ck2_open`: the return value, the value the function
itself stores in `errno` (`none` when it stores none), and the outgoing calls. -/
structure ck2_open_result where
  ret : Int
  errno : Option Int
  trace : List LauncherEffect
  deriving DecidableEq, Repr

/-- The flags `launcher_ck2_open` passes to `fcntl(fd, F_SETFL, fl)`: the
non-negative `fl` that `F_GETFL` returned, after
`if (flags & O_NONBLOCK) fl |= O_NONBLOCK;`.  `flags` is the bit pattern of the
caller's `int`. -/
def launcher_ck2_open_fl (p : Platform) (fl : Int) (flags : Nat) : Int :=
  if truthy (flags &&& O_NONBLOCK p) then ((fl.toNat ||| O_NONBLOCK p : Nat) : Int)
  else fl

/-- The function `launcher_ck2_open`. -/
def launcher_ck2_open (p : Platform) (wl : launcher_ck2) (env : ck2_open_env)
    (path : String) (flags : Nat) : ck2_open_result :=
  match env.stat with
  | none => { ret := -1, errno := none, trace := [.stat path] }
  | some st =>
    if !st.is_chr then
      { ret := -1, errno := some ENODEV, trace := [.stat path] }
    else
      let taken := launcher_ck2_take_device wl env st.major st.minor
      let fd := taken.1
      if fd < 0 then
        { ret := fd, errno := none, trace := [.stat path] ++ taken.2 }
      else
        let fl := env.getfl
        if fl < 0 then
          let r := -env.getfl_errno
          { ret := -1, errno := some (-r),
            trace := [.stat path] ++ taken.2 ++ [.fcntl_getfl fd, .close fd] ++
              launcher_ck2_release_device wl env.release_build st.major st.minor }
        else
          let fl := launcher_ck2_open_fl p fl flags
          if env.setfl < 0 then
            let r := -env.setfl_errno
            { ret := -1, errno := some (-r),
              trace := [.stat path] ++ taken.2 ++
                [.fcntl_getfl fd, .fcntl_setfl fd fl, .close fd] ++
                launcher_ck2_release_device wl env.release_build st.major st.minor }
          else
            { ret := fd, errno := none,
              trace := [.stat path] ++ taken.2 ++ [.fcntl_getfl fd, .fcntl_setfl fd fl] }

/-- The flag arguments of the `fcntl(fd, F_SETFL, fl)` calls among the outgoing
calls. -/
def setfl_arguments : List LauncherEffect → List Int
  | [] => []
  | .fcntl_setfl _ fl :: es => fl :: setfl_arguments es
  | _ :: es => setfl_arguments es

/-- An environment in which every call of `launcher_ck2_open` succeeds: a DRM
character device, descriptor 7 from ConsoleKit, current flags `O_RDWR` (2). -/
def sample_ck2_open_env : ck2_open_env where
  stat := some { is_chr := true, major := 226, minor := 0 }
  take_build := { new_method_call := true, append_args := true }
  take_reply := some (some (7, false))
  getfl := 2
  getfl_errno := 0
  setfl := 0
  setfl_errno := 0
  release_build := { new_method_call := true, append_args := true }

/-! ### Restoring the tty -/

/-- The results the environment gives to the calls of the restore functions:
the return value of each `ioctl` and of `tcgetattr` and `tcsetattr`. -/
structure restore_env where
  kdskbmute : Int
  kdskbmode : Int
  kdsetmode : Int
  tcgetattr : Int
  tcsetattr : Int
  vt_setmode : Int
  deriving DecidableEq, Repr

/-- The record `struct launcher_direct`; pointers are handles. -/
structure launcher_direct where
  base : Nat
  compositor : Nat
  kb_mode : Int
  tty : Int
  drm_fd : Int
  vt_source : Nat
  deriving DecidableEq, Repr

/-- The record `struct launcher_loginw`; pointers are handles. -/
structure launcher_loginw where
  base : Nat
  compositor : Nat
  loop : Nat
  fd : Int
  source : Nat
  kb_mode : Int
  tty : Int
  drm_fd : Int
  deriving DecidableEq, Repr

/-- The function `launcher_direct_restore`, for either platform.  The call
`drmDropMaster(launcher->drm_fd)` is recorded whether it resolves to libdrm or,
without `BUILD_DRM_COMPOSITOR`, to the stub of the file that returns 0. -/
def launcher_direct_restore (p : Platform) (env : restore_env)
    (launcher : launcher_direct) : List LauncherEffect :=
  let kb : List LauncherEffect :=
    match p with
    | .linux =>
      [LauncherEffect.ioctl launcher.tty (.KDSKBMUTE 0)] ++
        (if env.kdskbmute ≠ 0 then
          [LauncherEffect.ioctl launcher.tty (.KDSKBMODE launcher.kb_mode)] ++
            (if env.kdskbmode ≠ 0 then
              [LauncherEffect.weston_log "failed to restore kb mode: %m\n"] else [])
         else [])
    | .freebsd =>
      [LauncherEffect.ioctl launcher.tty (.KDSKBMODE launcher.kb_mode)] ++
        (if env.kdskbmode ≠ 0 then
          [LauncherEffect.weston_log "failed to restore kb mode: %m\n"] else [])
  let text : List LauncherEffect :=
    [LauncherEffect.ioctl launcher.tty (.KDSETMODE .KD_TEXT)] ++
      (if env.kdsetmode ≠ 0 then
        [LauncherEffect.weston_log "failed to set KD_TEXT mode on tty: %m\n"] else [])
  let sane : List LauncherEffect :=
    match p with
    | .linux => []
    | .freebsd =>
      [LauncherEffect.tcgetattr launcher.tty] ++
        (if env.tcgetattr ≠ 0 then
          [LauncherEffect.weston_log "Failed to get terminal attribute: %m\n"]
         else
          [LauncherEffect.tcsetattr launcher.tty] ++
            (if env.tcsetattr ≠ 0 then
              [LauncherEffect.weston_log "Failed to set terminal attribute: %m\n"]
             else []))
  let vt : List LauncherEffect :=
    [LauncherEffect.ioctl launcher.tty (.VT_SETMODE .VT_AUTO)] ++
      (if env.vt_setmode < 0 then
        [LauncherEffect.weston_log "could not reset vt handling\n"] else [])
  kb ++ text ++ sane ++ [LauncherEffect.drmDropMaster launcher.drm_fd] ++ vt

/-- The function `launcher_loginw_restore`.  The call
`drmDropMaster(launcher->drm_fd)` is recorded whether it resolves to libdrm or,
without `BUILD_DRM_COMPOSITOR`, to the stub of the file that returns 0. -/
def launcher_loginw_restore (env : restore_env) (launcher : launcher_loginw) :
    List LauncherEffect :=
  let kb : List LauncherEffect :=
    [LauncherEffect.ioctl launcher.tty (.KDSKBMUTE 0)] ++
      (if env.kdskbmute ≠ 0 then
        [LauncherEffect.ioctl launcher.tty (.KDSKBMODE launcher.kb_mode)] ++
          (if env.kdskbmode ≠ 0 then
            [LauncherEffect.weston_log "failed to restore kb mode: %m\n"] else [])
       else [])
  let text : List LauncherEffect :=
    [LauncherEffect.ioctl launcher.tty (.KDSETMODE .KD_TEXT)] ++
      (if env.kdsetmode ≠ 0 then
        [LauncherEffect.weston_log "failed to set KD_TEXT mode on tty: %m\n"] else [])
  let vt : List LauncherEffect :=
    [LauncherEffect.ioctl launcher.tty (.VT_SETMODE .VT_AUTO)] ++
      (if env.vt_setmode < 0 then
        [LauncherEffect.weston_log "could not reset vt handling\n"] else [])
  kb ++ text ++ [LauncherEffect.drmDropMaster launcher.drm_fd] ++ vt

/-- The call drops DRM master or sets the VT mode. -/
def LauncherEffect.is_drop_master_or_vt_setmode : LauncherEffect → Bool
  | .drmDropMaster _ => true
  | .ioctl _ (.VT_SETMODE _) => true
  | _ => false

/-! ## Outcome of a legacy anchor or gravity request -/

/-- The four direction bits of a legacy anchor or gravity value, as one mask. -/
def v6_direction_mask : Nat :=
  ZXDG_POSITIONER_V6_ANCHOR_TOP ||| ZXDG_POSITIONER_V6_ANCHOR_BOTTOM |||
    ZXDG_POSITIONER_V6_ANCHOR_LEFT ||| ZXDG_POSITIONER_V6_ANCHOR_RIGHT

/-- The part of a legacy value made of its four direction bits. -/
def v6_direction_bits (v : Nat) : Nat := v &&& v6_direction_mask

/-- The outcome of a positioner request: rejected with a protocol error code, or
a canonical value forwarded to the canonical implementation. -/
inductive positioner_outcome where
  | rejected (code : Nat)
  | forwarded (value : Nat)
  deriving DecidableEq, Repr

/-- The outcome an outgoing call stands for, if any: a protocol error is a
rejection, a canonical `set_anchor` or `set_gravity` call forwards its value. -/
def Effect.outcome : Effect → Option positioner_outcome
  | .wl_resource_post_error _ code _ => some (.rejected code)
  | .weston_desktop_xdg_wm_positioner_protocol_set_anchor _ _ anchor =>
      some (.forwarded anchor)
  | .weston_desktop_xdg_wm_positioner_protocol_set_gravity _ _ gravity =>
      some (.forwarded gravity)
  | _ => none

/-- The outcomes of a sequence of outgoing calls, in order. -/
def outcomes (es : List Effect) : List positioner_outcome :=
  es.filterMap Effect.outcome

/-- The canonical `set_anchor` call read as the canonical `set_gravity` call
with the same arguments; any other call is left as it is. -/
def Effect.as_gravity_call : Effect → Effect
  | .weston_desktop_xdg_wm_positioner_protocol_set_anchor c r a =>
      .weston_desktop_xdg_wm_positioner_protocol_set_gravity c r a
  | e => e

/-- The vertical edge of a canonical anchor, as a legacy bit: `top` for the
three top values, `bottom` for the three bottom values, none otherwise. -/
def canonical_anchor_vertical (v : Nat) : Nat :=
  if v = XDG_POSITIONER_ANCHOR_TOP ∨ v = XDG_POSITIONER_ANCHOR_TOP_LEFT ∨
      v = XDG_POSITIONER_ANCHOR_TOP_RIGHT then
    ZXDG_POSITIONER_V6_ANCHOR_TOP
  else if v = XDG_POSITIONER_ANCHOR_BOTTOM ∨ v = XDG_POSITIONER_ANCHOR_BOTTOM_LEFT ∨
      v = XDG_POSITIONER_ANCHOR_BOTTOM_RIGHT then
    ZXDG_POSITIONER_V6_ANCHOR_BOTTOM
  else 0

/-- The horizontal edge of a canonical anchor, as a legacy bit: `left` for the
three left values, `right` for the three right values, none otherwise. -/
def canonical_anchor_horizontal (v : Nat) : Nat :=
  if v = XDG_POSITIONER_ANCHOR_LEFT ∨ v = XDG_POSITIONER_ANCHOR_TOP_LEFT ∨
      v = XDG_POSITIONER_ANCHOR_BOTTOM_LEFT then
    ZXDG_POSITIONER_V6_ANCHOR_LEFT
  else if v = XDG_POSITIONER_ANCHOR_RIGHT ∨ v = XDG_POSITIONER_ANCHOR_TOP_RIGHT ∨
      v = XDG_POSITIONER_ANCHOR_BOTTOM_RIGHT then
    ZXDG_POSITIONER_V6_ANCHOR_RIGHT
  else 0

/-- The legacy direction bits a canonical anchor decomposes into: its vertical
edge together with its horizontal edge. -/
def canonical_anchor_to_v6 (v : Nat) : Nat :=
  canonical_anchor_vertical v ||| canonical_anchor_horizontal v

/-- The conflict-free combinations of the four direction bits. -/
def v6_conflict_free_combinations : List Nat :=
  (List.range 16).filter (fun v => !v6_conflict v)

/-! ## Bit-level helper lemmas -/

/-- Masking with a value below 16 only looks at the low four bits. -/
theorem and_low4 (a k : Nat) (hk : k < 16) : a &&& k = (a % 16) &&& k := by
  apply Nat.eq_of_testBit_eq
  intro i
  simp only [Nat.testBit_and]
  by_cases hi : i < 4
  · have h := Nat.testBit_mod_two_pow a 4 i
    simp only [hi, decide_True, Bool.true_and] at h
    have e : (2 : Nat) ^ 4 = 16 := by norm_num
    rw [e] at h
    rw [h]
  · have hk2 : k.testBit i = false := by
      apply Nat.testBit_eq_false_of_lt
      have h4 : 4 ≤ i := Nat.le_of_not_lt hi
      calc k < 2 ^ 4 := by simpa using hk
        _ ≤ 2 ^ i := Nat.pow_le_pow_right (by decide) h4
    simp [hk2]

/-- A bit among the low four is a bit of the value modulo 16. -/
theorem testBit_low4 (a i : Nat) (hi : i < 4) : a.testBit i = (a % 16).testBit i := by
  have h := Nat.testBit_mod_two_pow a 4 i
  simp only [hi, decide_True, Bool.true_and] at h
  have e : (2 : Nat) ^ 4 = 16 := by norm_num
  rw [e] at h
  exact h.symm

theorem set_anchor_low4 (c r a : Nat) :
    weston_desktop_xdg_positioner_v6_protocol_set_anchor c r a =
      weston_desktop_xdg_positioner_v6_protocol_set_anchor c r (a % 16) := by
  unfold weston_desktop_xdg_positioner_v6_protocol_set_anchor BIT_TEST
  simp only [ZXDG_POSITIONER_V6_ANCHOR_TOP, ZXDG_POSITIONER_V6_ANCHOR_BOTTOM,
    ZXDG_POSITIONER_V6_ANCHOR_LEFT, ZXDG_POSITIONER_V6_ANCHOR_RIGHT]
  have e5 : (1 : Nat) ||| 4 = 5 := by decide
  have e9 : (1 : Nat) ||| 8 = 9 := by decide
  have e6 : (2 : Nat) ||| 4 = 6 := by decide
  have e10 : (2 : Nat) ||| 8 = 10 := by decide
  have h1 := and_low4 a 1 (by decide)
  have h2 := and_low4 a 2 (by decide)
  have h4 := and_low4 a 4 (by decide)
  have h8 := and_low4 a 8 (by decide)
  have h5 := and_low4 a 5 (by decide)
  have h9 := and_low4 a 9 (by decide)
  have h6 := and_low4 a 6 (by decide)
  have h10 := and_low4 a 10 (by decide)
  simp only [e5, e9, e6, e10, h1, h2, h4, h8, h5, h9, h6, h10, Nat.mod_mod]

theorem v6_top_low4 (a : Nat) : v6_top a = v6_top (a % 16) :=
  testBit_low4 a 0 (by decide)
theorem v6_bottom_low4 (a : Nat) : v6_bottom a = v6_bottom (a % 16) :=
  testBit_low4 a 1 (by decide)
theorem v6_left_low4 (a : Nat) : v6_left a = v6_left (a % 16) :=
  testBit_low4 a 2 (by decide)
theorem v6_right_low4 (a : Nat) : v6_right a = v6_right (a % 16) :=
  testBit_low4 a 3 (by decide)

theorem set_gravity_low4 (c r a : Nat) :
    weston_desktop_xdg_positioner_v6_protocol_set_gravity c r a =
      weston_desktop_xdg_positioner_v6_protocol_set_gravity c r (a % 16) := by
  unfold weston_desktop_xdg_positioner_v6_protocol_set_gravity BIT_TEST
  simp only [ZXDG_POSITIONER_V6_GRAVITY_TOP, ZXDG_POSITIONER_V6_GRAVITY_BOTTOM,
    ZXDG_POSITIONER_V6_GRAVITY_LEFT, ZXDG_POSITIONER_V6_GRAVITY_RIGHT]
  have e5 : (1 : Nat) ||| 4 = 5 := by decide
  have e9 : (1 : Nat) ||| 8 = 9 := by decide
  have e6 : (2 : Nat) ||| 4 = 6 := by decide
  have e10 : (2 : Nat) ||| 8 = 10 := by decide
  have h1 := and_low4 a 1 (by decide)
  have h2 := and_low4 a 2 (by decide)
  have h4 := and_low4 a 4 (by decide)
  have h8 := and_low4 a 8 (by decide)
  have h5 := and_low4 a 5 (by decide)
  have h9 := and_low4 a 9 (by decide)
  have h6 := and_low4 a 6 (by decide)
  have h10 := and_low4 a 10 (by decide)
  simp only [e5, e9, e6, e10, h1, h2, h4, h8, h5, h9, h6, h10, Nat.mod_mod]

theorem v6_conflict_low4 (a : Nat) : v6_conflict a = v6_conflict (a % 16) := by
  unfold v6_conflict
  rw [v6_top_low4 a, v6_bottom_low4 a, v6_left_low4 a, v6_right_low4 a]

/-- A conflicting anchor value only posts the protocol error. -/
theorem set_anchor_of_conflict (c r a : Nat) (h : v6_conflict a = true) :
    weston_desktop_xdg_positioner_v6_protocol_set_anchor c r a =
      [Effect.wl_resource_post_error r ZXDG_POSITIONER_V6_ERROR_INVALID_INPUT
        "same-axis values are not allowed"] := by
  rw [set_anchor_low4]
  rw [v6_conflict_low4] at h
  have hm : a % 16 < 16 := Nat.mod_lt _ (by decide)
  generalize a % 16 = m at hm h
  interval_cases m <;> first
    | rfl
    | (exfalso; revert h; decide)

/-- A conflict-free anchor value only calls the canonical handler. -/
theorem set_anchor_of_no_conflict (c r a : Nat) (h : v6_conflict a = false) :
    ∃ tr : Nat, weston_desktop_xdg_positioner_v6_protocol_set_anchor c r a =
      [Effect.weston_desktop_xdg_wm_positioner_protocol_set_anchor c r tr] := by
  rw [set_anchor_low4]
  rw [v6_conflict_low4] at h
  have hm : a % 16 < 16 := Nat.mod_lt _ (by decide)
  generalize a % 16 = m at hm h
  interval_cases m <;> first
    | exact ⟨_, rfl⟩
    | (exfalso; revert h; decide)

/-- A conflicting gravity value only posts the protocol error. -/
theorem set_gravity_of_conflict (c r a : Nat) (h : v6_conflict a = true) :
    weston_desktop_xdg_positioner_v6_protocol_set_gravity c r a =
      [Effect.wl_resource_post_error r ZXDG_POSITIONER_V6_ERROR_INVALID_INPUT
        "same-axis values are not allowed"] := by
  rw [set_gravity_low4]
  rw [v6_conflict_low4] at h
  have hm : a % 16 < 16 := Nat.mod_lt _ (by decide)
  generalize a % 16 = m at hm h
  interval_cases m <;> first
    | rfl
    | (exfalso; revert h; decide)

/-- A conflict-free gravity value only calls the canonical handler. -/
theorem set_gravity_of_no_conflict (c r a : Nat) (h : v6_conflict a = false) :
    ∃ tr : Nat, weston_desktop_xdg_positioner_v6_protocol_set_gravity c r a =
      [Effect.weston_desktop_xdg_wm_positioner_protocol_set_gravity c r tr] := by
  rw [set_gravity_low4]
  rw [v6_conflict_low4] at h
  have hm : a % 16 < 16 := Nat.mod_lt _ (by decide)
  generalize a % 16 = m at hm h
  interval_cases m <;> first
    | exact ⟨_, rfl⟩
    | (exfalso; revert h; decide)

/-! ## Legacy anchor and gravity translation -/

/-- C1: for a legacy anchor value without same-axis conflict, the shim makes
exactly one outgoing call, to the canonical `set_anchor`, and the value passed is
selected by the direction bits that are set: a vertical and a horizontal bit give
the matching corner, a single bit gives that edge, no bit gives 0. -/
theorem set_anchor_conflict_free_translation (wl_client resource anchor : Nat)
    (hconf : v6_conflict anchor = false) :
    ∃ tr : Nat,
      weston_desktop_xdg_positioner_v6_protocol_set_anchor wl_client resource anchor =
        [Effect.weston_desktop_xdg_wm_positioner_protocol_set_anchor
          wl_client resource tr] ∧
      (v6_top anchor = true ∧ v6_left anchor = true →
        tr = XDG_POSITIONER_ANCHOR_TOP_LEFT) ∧
      (v6_top anchor = true ∧ v6_right anchor = true →
        tr = XDG_POSITIONER_ANCHOR_TOP_RIGHT) ∧
      (v6_bottom anchor = true ∧ v6_left anchor = true →
        tr = XDG_POSITIONER_ANCHOR_BOTTOM_LEFT) ∧
      (v6_bottom anchor = true ∧ v6_right anchor = true →
        tr = XDG_POSITIONER_ANCHOR_BOTTOM_RIGHT) ∧
      (v6_top anchor = true ∧ v6_left anchor = false ∧ v6_right anchor = false →
        tr = XDG_POSITIONER_ANCHOR_TOP) ∧
      (v6_bottom anchor = true ∧ v6_left anchor = false ∧ v6_right anchor = false →
        tr = XDG_POSITIONER_ANCHOR_BOTTOM) ∧
      (v6_left anchor = true ∧ v6_top anchor = false ∧ v6_bottom anchor = false →
        tr = XDG_POSITIONER_ANCHOR_LEFT) ∧
      (v6_right anchor = true ∧ v6_top anchor = false ∧ v6_bottom anchor = false →
        tr = XDG_POSITIONER_ANCHOR_RIGHT) ∧
      (v6_top anchor = false ∧ v6_bottom anchor = false ∧
        v6_left anchor = false ∧ v6_right anchor = false →
        tr = 0) := by
  rw [set_anchor_low4]
  rw [v6_conflict_low4] at hconf
  rw [v6_top_low4, v6_bottom_low4, v6_left_low4, v6_right_low4]
  have hm : anchor % 16 < 16 := Nat.mod_lt _ (by decide)
  generalize anchor % 16 = m at hm hconf
  interval_cases m <;> first
    | (exfalso; revert hconf; decide)
    | (refine ⟨_, rfl, ?_⟩; decide)

/-- Witness for C1: the legacy value `TOP|LEFT` with a stray high bit (5 + 32)
is conflict-free and reaches the canonical handler as `TOP_LEFT`. -/
theorem set_anchor_conflict_free_translation_witness :
    weston_desktop_xdg_positioner_v6_protocol_set_anchor 7 9 37 =
      [Effect.weston_desktop_xdg_wm_positioner_protocol_set_anchor 7 9
        XDG_POSITIONER_ANCHOR_TOP_LEFT] := by
  obtain ⟨tr, h, h5, _⟩ := set_anchor_conflict_free_translation 7 9 37 (by decide)
  rw [h, h5 (by decide)]

/-- C2: for a legacy gravity value without same-axis conflict, the shim makes
exactly one outgoing call, to the canonical `set_gravity`, and the value passed
is selected by the direction bits that are set: a vertical and a horizontal bit
give the matching corner, a single bit gives that edge, no bit gives 0. -/
theorem set_gravity_conflict_free_translation (wl_client resource gravity : Nat)
    (hconf : v6_conflict gravity = false) :
    ∃ tr : Nat,
      weston_desktop_xdg_positioner_v6_protocol_set_gravity wl_client resource gravity =
        [Effect.weston_desktop_xdg_wm_positioner_protocol_set_gravity
          wl_client resource tr] ∧
      (v6_top gravity = true ∧ v6_left gravity = true →
        tr = XDG_POSITIONER_GRAVITY_TOP_LEFT) ∧
      (v6_top gravity = true ∧ v6_right gravity = true →
        tr = XDG_POSITIONER_GRAVITY_TOP_RIGHT) ∧
      (v6_bottom gravity = true ∧ v6_left gravity = true →
        tr = XDG_POSITIONER_GRAVITY_BOTTOM_LEFT) ∧
      (v6_bottom gravity = true ∧ v6_right gravity = true →
        tr = XDG_POSITIONER_GRAVITY_BOTTOM_RIGHT) ∧
      (v6_top gravity = true ∧ v6_left gravity = false ∧ v6_right gravity = false →
        tr = XDG_POSITIONER_GRAVITY_TOP) ∧
      (v6_bottom gravity = true ∧ v6_left gravity = false ∧ v6_right gravity = false →
        tr = XDG_POSITIONER_GRAVITY_BOTTOM) ∧
      (v6_left gravity = true ∧ v6_top gravity = false ∧ v6_bottom gravity = false →
        tr = XDG_POSITIONER_GRAVITY_LEFT) ∧
      (v6_right gravity = true ∧ v6_top gravity = false ∧ v6_bottom gravity = false →
        tr = XDG_POSITIONER_GRAVITY_RIGHT) ∧
      (v6_top gravity = false ∧ v6_bottom gravity = false ∧
        v6_left gravity = false ∧ v6_right gravity = false →
        tr = 0) := by
  rw [set_gravity_low4]
  rw [v6_conflict_low4] at hconf
  rw [v6_top_low4, v6_bottom_low4, v6_left_low4, v6_right_low4]
  have hm : gravity % 16 < 16 := Nat.mod_lt _ (by decide)
  generalize gravity % 16 = m at hm hconf
  interval_cases m <;> first
    | (exfalso; revert hconf; decide)
    | (refine ⟨_, rfl, ?_⟩; decide)

/-- Witness for C2: the legacy value `BOTTOM|RIGHT` (2 + 8) is conflict-free and
reaches the canonical handler as `BOTTOM_RIGHT`. -/
theorem set_gravity_conflict_free_translation_witness :
    weston_desktop_xdg_positioner_v6_protocol_set_gravity 7 9 10 =
      [Effect.weston_desktop_xdg_wm_positioner_protocol_set_gravity 7 9
        XDG_POSITIONER_GRAVITY_BOTTOM_RIGHT] := by
  obtain ⟨tr, h, _, _, _, h8, _⟩ :=
    set_gravity_conflict_free_translation 7 9 10 (by decide)
  rw [h, h8 (by decide)]

/-- C3: the legacy `set_anchor` posts the `INVALID_INPUT` protocol error exactly
when the value has both `top` and `bottom` or both `left` and `right`; in that
case the error is its only outgoing call, the canonical handler is not called,
and the state owned by the canonical implementation is what it was. -/
theorem set_anchor_rejects_iff_conflict (wl_client resource anchor : Nat) :
    (((weston_desktop_xdg_positioner_v6_protocol_set_anchor wl_client resource anchor).any
        (Effect.is_post_error ZXDG_POSITIONER_V6_ERROR_INVALID_INPUT) = true) ↔
      v6_conflict anchor = true) ∧
    (v6_conflict anchor = true →
      weston_desktop_xdg_positioner_v6_protocol_set_anchor wl_client resource anchor =
        [Effect.wl_resource_post_error resource ZXDG_POSITIONER_V6_ERROR_INVALID_INPUT
          "same-axis values are not allowed"] ∧
      (weston_desktop_xdg_positioner_v6_protocol_set_anchor wl_client resource anchor).any
        Effect.is_canonical_call = false ∧
      ∀ (σ : Type) (k : CanonicalHandlers σ) (s : σ),
        run k (weston_desktop_xdg_positioner_v6_protocol_set_anchor
          wl_client resource anchor) s = s) := by
  constructor
  · cases hc : v6_conflict anchor with
    | true =>
      rw [set_anchor_of_conflict wl_client resource anchor hc]
      simp [Effect.is_post_error]
    | false =>
      obtain ⟨tr, h⟩ := set_anchor_of_no_conflict wl_client resource anchor hc
      rw [h]
      simp [Effect.is_post_error]
  · intro hc
    rw [set_anchor_of_conflict wl_client resource anchor hc]
    refine ⟨rfl, ?_, ?_⟩
    · simp [Effect.is_canonical_call]
    · intro σ k s
      rfl

/-- C4: the legacy `set_gravity` posts the `INVALID_INPUT` protocol error exactly
when the value has both `top` and `bottom` or both `left` and `right`; in that
case the error is its only outgoing call, the canonical handler is not called,
and the state owned by the canonical implementation is what it was. -/
theorem set_gravity_rejects_iff_conflict (wl_client resource gravity : Nat) :
    (((weston_desktop_xdg_positioner_v6_protocol_set_gravity wl_client resource gravity).any
        (Effect.is_post_error ZXDG_POSITIONER_V6_ERROR_INVALID_INPUT) = true) ↔
      v6_conflict gravity = true) ∧
    (v6_conflict gravity = true →
      weston_desktop_xdg_positioner_v6_protocol_set_gravity wl_client resource gravity =
        [Effect.wl_resource_post_error resource ZXDG_POSITIONER_V6_ERROR_INVALID_INPUT
          "same-axis values are not allowed"] ∧
      (weston_desktop_xdg_positioner_v6_protocol_set_gravity wl_client resource gravity).any
        Effect.is_canonical_call = false ∧
      ∀ (σ : Type) (k : CanonicalHandlers σ) (s : σ),
        run k (weston_desktop_xdg_positioner_v6_protocol_set_gravity
          wl_client resource gravity) s = s) := by
  constructor
  · cases hc : v6_conflict gravity with
    | true =>
      rw [set_gravity_of_conflict wl_client resource gravity hc]
      simp [Effect.is_post_error]
    | false =>
      obtain ⟨tr, h⟩ := set_gravity_of_no_conflict wl_client resource gravity hc
      rw [h]
      simp [Effect.is_post_error]
  · intro hc
    rw [set_gravity_of_conflict wl_client resource gravity hc]
    refine ⟨rfl, ?_, ?_⟩
    · simp [Effect.is_canonical_call]
    · intro σ k s
      rfl

/-! ## Pass-through requests -/

/-- Converting a 32-bit enumeration value to `int` and back gives it back. -/
theorem enum_of_int_of_enum (v : Nat) (hv : v < 2 ^ 32) :
    enum_of_int (int_of_enum v) = v := by
  unfold enum_of_int int_of_enum
  rw [Nat.mod_eq_of_lt hv]
  split
  · have h : ((v : Int) % 2 ^ 32) = (v : Int) := by
      apply Int.emod_eq_of_lt
      · exact Int.ofNat_nonneg v
      · exact_mod_cast hv
    rw [h]
    exact Int.toNat_natCast v
  · have h : (((v : Int) - 2 ^ 32) % 2 ^ 32) = (v : Int) := by
      rw [Int.sub_emod, Int.emod_self, sub_zero, Int.emod_emod]
      apply Int.emod_eq_of_lt
      · exact Int.ofNat_nonneg v
      · exact_mod_cast hv
    rw [h]
    exact Int.toNat_natCast v

/-- C5: the legacy `set_constraint_adjustment` request makes exactly one outgoing
call, to the canonical `set_constraint_adjustment`, with the same client, the
same resource and the same numeric value; it posts no protocol error. -/
theorem set_constraint_adjustment_forwards_unchanged
    (wl_client resource adjustment : Nat) (hv : adjustment < 2 ^ 32) :
    weston_desktop_xdg_positioner_protocol_set_constraint_adjustment
        wl_client resource adjustment =
      [Effect.weston_desktop_xdg_wm_positioner_protocol_set_constraint_adjustment
        wl_client resource adjustment] ∧
    ∀ code : Nat,
      (weston_desktop_xdg_positioner_protocol_set_constraint_adjustment
        wl_client resource adjustment).any (Effect.is_post_error code) = false := by
  unfold weston_desktop_xdg_positioner_protocol_set_constraint_adjustment
  rw [enum_of_int_of_enum adjustment hv]
  refine ⟨rfl, ?_⟩
  intro code
  simp [Effect.is_post_error]

/-- Witness for C5: the all-ones 32-bit value, which is negative as an `int`,
is forwarded as it came. -/
theorem set_constraint_adjustment_forwards_unchanged_witness :
    weston_desktop_xdg_positioner_protocol_set_constraint_adjustment 7 9 4294967295 =
      [Effect.weston_desktop_xdg_wm_positioner_protocol_set_constraint_adjustment
        7 9 4294967295] :=
  (set_constraint_adjustment_forwards_unchanged 7 9 4294967295 (by norm_num)).1

/-- C6: the legacy toplevel `resize` request makes exactly one outgoing call, to
the canonical resize handler, with the same seat, the same serial and the same
resize-edge value. -/
theorem toplevel_resize_forwards_unchanged
    (wl_client resource seat_resource serial edges : Nat) (hv : edges < 2 ^ 32) :
    weston_desktop_xdg_toplevel_protocol_resize
        wl_client resource seat_resource serial edges =
      [Effect.weston_desktop_xdg_wm_toplevel_protocol_resize
        wl_client resource seat_resource serial edges] := by
  unfold weston_desktop_xdg_toplevel_protocol_resize
  rw [enum_of_int_of_enum edges hv]

/-- Witness for C6: a resize by the bottom-right edge (value 10) with seat 3 and
serial 41 is forwarded as it came. -/
theorem toplevel_resize_forwards_unchanged_witness :
    weston_desktop_xdg_toplevel_protocol_resize 7 9 3 41 10 =
      [Effect.weston_desktop_xdg_wm_toplevel_protocol_resize 7 9 3 41 10] :=
  toplevel_resize_forwards_unchanged 7 9 3 41 10 (by norm_num)

/-! ## Event emitters -/

/-- C7: the legacy popup configure emitter sends exactly one event,
`configure(x, y, width, height)` on the popup's resource, whose four values are
the popup's `geometry.x`, `.y`, `.width` and `.height` in that order, and it
leaves the popup as it was. -/
theorem post_popup_configure_carries_geometry (popup : weston_desktop_xdg_popup) :
    (weston_desktop_xdg_post_popup_configure popup).2 =
      [Effect.zxdg_popup_v6_send_configure popup.resource
        popup.geometry.x popup.geometry.y popup.geometry.width
        popup.geometry.height] ∧
    (weston_desktop_xdg_post_popup_configure popup).1 = popup ∧
    desktop_xdg_handlers.post_popup_configure =
      weston_desktop_xdg_post_popup_configure :=
  ⟨rfl, rfl, rfl⟩

/-- C8: closing through the legacy handler table sends exactly one event, `close`
on a toplevel's resource or `popup_done` on a popup's resource, and returns the
toplevel or popup object with every field as it was. -/
theorem post_close_only_emits_event (toplevel : weston_desktop_xdg_toplevel)
    (popup : weston_desktop_xdg_popup) :
    desktop_xdg_handlers.post_toplevel_close toplevel =
      (toplevel, [Effect.zxdg_toplevel_v6_send_close toplevel.resource]) ∧
    desktop_xdg_handlers.post_popup_close popup =
      (popup, [Effect.zxdg_popup_v6_send_popup_done popup.resource]) :=
  ⟨rfl, rfl⟩

/-! ## The handler table and the capability table -/

/-- C9, as stated, fails: the handler table does not have three event-emission
operations named `post_configure`, `post_close` and `post_ping`; it has five, and
none is named `post_configure` or `post_close`. -/
theorem handlers_event_operations_not_three :
    ¬ (weston_desktop_xdg_handlers_event_operations =
        ["post_configure", "post_close", "post_ping"]) ∧
    weston_desktop_xdg_handlers_event_operations.length ≠ 3 ∧
    "post_configure" ∉ weston_desktop_xdg_handlers_event_operations ∧
    "post_close" ∉ weston_desktop_xdg_handlers_event_operations := by
  decide

/-- C9, amended: the handler table has exactly five event-emission operations,
`post_popup_configure`, `post_toplevel_configure`, `post_toplevel_close`,
`post_popup_close` and `post_ping` (configure and close are one operation per
role), and the legacy dialect fills each with its own emitter. -/
theorem handlers_event_operations_are_five :
    weston_desktop_xdg_handlers_event_operations =
      ["post_popup_configure", "post_toplevel_configure", "post_toplevel_close",
       "post_popup_close", "post_ping"] ∧
    weston_desktop_xdg_handlers_event_operations.length = 5 ∧
    desktop_xdg_handlers.post_popup_configure =
      weston_desktop_xdg_post_popup_configure ∧
    desktop_xdg_handlers.post_toplevel_configure =
      weston_desktop_xdg_post_toplevel_configure ∧
    desktop_xdg_handlers.post_toplevel_close =
      weston_desktop_xdg_post_toplevel_close ∧
    desktop_xdg_handlers.post_popup_close = weston_desktop_xdg_post_popup_close ∧
    desktop_xdg_handlers.post_ping = weston_desktop_xdg_post_ping :=
  ⟨rfl, rfl, rfl, rfl, rfl, rfl, rfl⟩

/-- C10, as stated, fails: whatever role a surface has, the capability table the
legacy handler table registers is not specific to that role, because it holds
top-level operations and `update_position` at once. -/
theorem capability_table_not_role_specific :
    ¬ ∃ role : weston_desktop_xdg_surface_role,
      desktop_xdg_handlers.desktop_surface_impl.role_specific role := by
  rintro ⟨role, h1, h2⟩
  have e1 := h1 rfl
  have e2 := h2 rfl
  rw [e1] at e2
  exact absurd e2 (by decide)

/-- C10, amended: the legacy handler table registers one capability table,
`weston_desktop_xdg_surface_internal_implementation`, with no selection by role;
it contains every top-level operation, `update_position` and the common
operations together, each top-level slot holding a toplevel function and the
`update_position` slot the popup function. -/
theorem capability_table_shared_by_roles :
    desktop_xdg_handlers.desktop_surface_impl =
      weston_desktop_xdg_surface_internal_implementation ∧
    weston_desktop_xdg_surface_internal_implementation.has_all_toplevel_operations
      = true ∧
    weston_desktop_xdg_surface_internal_implementation.has_update_position = true ∧
    weston_desktop_xdg_surface_internal_implementation.toplevel_operations =
      [some .weston_desktop_xdg_wm_toplevel_set_maximized,
       some .weston_desktop_xdg_wm_toplevel_set_fullscreen,
       some .weston_desktop_xdg_wm_toplevel_set_resizing,
       some .weston_desktop_xdg_wm_toplevel_set_activated,
       some .weston_desktop_xdg_wm_toplevel_set_size,
       some .weston_desktop_xdg_wm_toplevel_get_maximized,
       some .weston_desktop_xdg_wm_toplevel_get_fullscreen,
       some .weston_desktop_xdg_wm_toplevel_get_resizing,
       some .weston_desktop_xdg_wm_toplevel_get_activated] ∧
    weston_desktop_xdg_surface_internal_implementation.update_position =
      some .weston_desktop_xdg_wm_popup_update_position ∧
    weston_desktop_xdg_surface_internal_implementation.committed =
      some .weston_desktop_xdg_wm_surface_committed ∧
    weston_desktop_xdg_surface_internal_implementation.ping =
      some .weston_desktop_xdg_wm_surface_ping ∧
    weston_desktop_xdg_surface_internal_implementation.close =
      some .weston_desktop_xdg_wm_surface_close ∧
    weston_desktop_xdg_surface_internal_implementation.destroy =
      some .weston_desktop_xdg_wm_surface_destroy :=
  ⟨rfl, rfl, rfl, rfl, rfl, rfl, rfl, rfl, rfl⟩

/-! ## The surface-role state machine -/

/-- A surface that has a role rejects every role-assignment attempt and stays as
it is. -/
theorem role_request_apply_of_assigned (q : role_request)
    (surface : weston_desktop_xdg_surface)
    (h : surface.role ≠ .WESTON_DESKTOP_XDG_SURFACE_ROLE_NONE) :
    q.apply surface = (surface, some .RoleConflict) := by
  cases q <;>
    simp [role_request.apply, weston_desktop_xdg_wm_surface_protocol_get_toplevel,
      weston_desktop_xdg_wm_surface_protocol_get_popup,
      weston_desktop_xdg_surface.assign_role, h]

/-- A successful role-assignment attempt leaves the surface with a role. -/
theorem role_request_apply_role (q : role_request)
    (surface : weston_desktop_xdg_surface) (h : (q.apply surface).2 = none) :
    (q.apply surface).1.role ≠ .WESTON_DESKTOP_XDG_SURFACE_ROLE_NONE := by
  by_cases hr : surface.role = .WESTON_DESKTOP_XDG_SURFACE_ROLE_NONE
  · cases q with
    | get_toplevel f =>
      cases f <;>
        simp_all [role_request.apply, weston_desktop_xdg_wm_surface_protocol_get_toplevel,
          weston_desktop_xdg_surface.assign_role]
    | get_popup f =>
      cases f <;>
        simp_all [role_request.apply, weston_desktop_xdg_wm_surface_protocol_get_popup,
          weston_desktop_xdg_surface.assign_role]
  · rw [role_request_apply_of_assigned q surface hr] at h
    simp at h

theorem run_role_requests_of_assigned (surface : weston_desktop_xdg_surface)
    (h : surface.role ≠ .WESTON_DESKTOP_XDG_SURFACE_ROLE_NONE)
    (qs : List role_request) :
    run_role_requests surface qs = (surface, qs.map (fun _ => some .RoleConflict)) := by
  induction qs with
  | nil => rfl
  | cons q qs ih =>
    simp only [run_role_requests, role_request_apply_of_assigned q surface h, ih,
      List.map_cons]

/-- C11: once a role-assignment attempt (`get_toplevel` or `get_popup`) has
succeeded on a surface, the surface has a role, and every later attempt, for the
same role or the other one, fails with `RoleConflict` and leaves the surface,
its role included, unchanged. -/
theorem role_assignment_is_one_way (surface : weston_desktop_xdg_surface)
    (first : role_request) (later : List role_request)
    (h : (first.apply surface).2 = none) :
    (first.apply surface).1.role ≠ .WESTON_DESKTOP_XDG_SURFACE_ROLE_NONE ∧
    run_role_requests (first.apply surface).1 later =
      ((first.apply surface).1, later.map (fun _ => some .RoleConflict)) ∧
    (run_role_requests (first.apply surface).1 later).1.role =
      (first.apply surface).1.role := by
  have hr := role_request_apply_role first surface h
  have hrun := run_role_requests_of_assigned (first.apply surface).1 hr later
  exact ⟨hr, hrun, by rw [hrun]⟩

/-- Witness for C11: after `get_toplevel` succeeds on a role-less surface, a
second `get_toplevel` and a `get_popup` both fail with `RoleConflict`. -/
theorem role_assignment_is_one_way_witness :
    (run_role_requests ((role_request.get_toplevel false).apply sample_surface).1
        [.get_toplevel false, .get_popup false]).2 =
      [some .RoleConflict, some .RoleConflict] ∧
    (run_role_requests ((role_request.get_toplevel false).apply sample_surface).1
        [.get_toplevel false, .get_popup false]).1.role =
      .WESTON_DESKTOP_XDG_SURFACE_ROLE_TOPLEVEL := by
  have h := role_assignment_is_one_way sample_surface (.get_toplevel false)
    [.get_toplevel false, .get_popup false] rfl
  refine ⟨by rw [h.2.1]; rfl, by rw [h.2.2]; rfl⟩

/-- Popping through a serial keeps a part of the queue, in order. -/
theorem pop_through_sublist {α : Type} (f : α → Nat) (S : Nat) (l : List α) :
    (pop_through f S l).Sublist l := by
  induction l with
  | nil => exact List.Sublist.refl _
  | cons c cs ih =>
    unfold pop_through
    split
    · exact List.sublist_cons_self c cs
    · exact List.Sublist.cons c ih

/-- Popping a list of base records is popping the list of full records. -/
theorem pop_through_map {α β : Type} (g : α → β) (f : β → Nat) (S : Nat) (l : List α) :
    pop_through f S (l.map g) = (pop_through (fun c => f (g c)) S l).map g := by
  induction l with
  | nil => rfl
  | cons c cs ih =>
    simp only [List.map_cons, pop_through]
    split
    · rfl
    · exact ih

/-- On a queue with strictly increasing serials, popping through a queued serial
removes exactly the entries with a serial up to it. -/
theorem pop_through_eq_filter {α : Type} (f : α → Nat) (S : Nat) (l : List α)
    (hs : (l.map f).Pairwise (· < ·)) (hm : S ∈ l.map f) :
    pop_through f S l = l.filter (fun c => decide (S < f c)) := by
  induction l with
  | nil => simp at hm
  | cons c cs ih =>
    rw [List.map_cons, List.pairwise_cons] at hs
    obtain ⟨hc, hcs⟩ := hs
    unfold pop_through
    by_cases he : f c = S
    · rw [if_pos he]
      have hall : ∀ x ∈ cs, decide (S < f x) = true := by
        intro x hx
        have := hc (f x) (List.mem_map_of_mem f hx)
        simp only [decide_eq_true_eq]
        omega
      rw [List.filter_cons_of_neg (by simp [he]), List.filter_eq_self.mpr hall]
    · rw [if_neg he]
      have hm2 : S ∈ cs.map f := by
        rw [List.map_cons, List.mem_cons] at hm
        rcases hm with h | h
        · exact absurd h.symm he
        · exact h
      have hlt : f c < S := hc S hm2
      rw [List.filter_cons_of_neg (by simp; omega)]
      exact ih hcs hm2

/-- An entry is found by serial exactly when the serial is queued. -/
theorem find_serial_isSome (m : toplevel_machine) (S : Nat) :
    (m.configures.find? (fun c => c.base.serial == S)).isSome = true ↔
      S ∈ m.queued_serials := by
  simp only [List.find?_isSome, toplevel_machine.queued_serials, List.mem_map,
    beq_iff_eq]

/-- Below the 32-bit limit the next serial is the successor. -/
theorem next_serial_of_lt (s : Nat) (h : s + 1 < 2 ^ 32) : next_serial s = s + 1 :=
  Nat.mod_eq_of_lt h

/-- While the serial counter does not wrap around, every operation of the state
machine preserves the invariant of the queue and advances the counter by at most
one. -/
theorem queue_ok_step (op : toplevel_op) (m : toplevel_machine) (h : m.queue_ok)
    (hb : m.display_serial + 1 < 2 ^ 32) :
    (op.apply m).machine.queue_ok ∧
    (op.apply m).machine.display_serial ≤ m.display_serial + 1 := by
  obtain ⟨hs, hbd, hl⟩ := h
  have hn := next_serial_of_lt m.display_serial hb
  cases op with
  | other_serial =>
    refine ⟨⟨hs, ?_, hl⟩, ?_⟩
    · intro s hsm
      have := hbd s hsm
      simp only [toplevel_op.apply, toplevel_machine.other_serial, hn]
      omega
    · simp only [toplevel_op.apply, toplevel_machine.other_serial, hn]
      exact Nat.le_refl _
  | request_configure state size =>
    exact ⟨⟨hs, hbd, hl⟩, Nat.le_succ _⟩
  | flush_pending_configure states =>
    refine ⟨⟨?_, ?_, ?_⟩, ?_⟩
    · simp only [toplevel_op.apply, toplevel_machine.flush_pending_configure,
        toplevel_machine.queued_serials, List.map_append, List.map_cons, List.map_nil, hn]
      rw [List.pairwise_append]
      refine ⟨hs, List.pairwise_singleton _ _, ?_⟩
      intro a ha b hb2
      simp only [List.mem_singleton] at hb2
      have := hbd a ha
      omega
    · intro s hsm
      simp only [toplevel_op.apply, toplevel_machine.flush_pending_configure,
        toplevel_machine.queued_serials, List.map_append, List.map_cons, List.map_nil,
        List.mem_append, List.mem_singleton, hn] at hsm ⊢
      rcases hsm with h1 | h1
      · have := hbd s h1
        omega
      · omega
    · simp only [toplevel_op.apply, toplevel_machine.flush_pending_configure,
        desktop_xdg_handlers, weston_desktop_xdg_post_toplevel_configure,
        List.map_append, List.map_cons, List.map_nil, hl]
    · simp only [toplevel_op.apply, toplevel_machine.flush_pending_configure, hn]
      exact Nat.le_refl _
  | ack_configure serial =>
    simp only [toplevel_op.apply, toplevel_machine.ack_configure]
    split
    · exact ⟨⟨hs, hbd, hl⟩, Nat.le_succ _⟩
    · refine ⟨⟨?_, ?_, ?_⟩, Nat.le_succ _⟩
      · simp only [toplevel_machine.queued_serials]
        exact hs.sublist ((pop_through_sublist _ serial m.configures).map _)
      · intro s hsm
        simp only [toplevel_machine.queued_serials] at hsm
        exact hbd s (((pop_through_sublist _ serial m.configures).map _).subset hsm)
      · simp only [hl]
        exact pop_through_map (fun c => c.base) weston_desktop_xdg_surface_configure.serial
          serial m.configures

/-- Every state reached from a state with a sound queue, without the serial
counter wrapping around, has a sound queue. -/
theorem queue_ok_run (ops : List toplevel_op) (m : toplevel_machine) (h : m.queue_ok)
    (hb : m.display_serial + ops.length < 2 ^ 32) :
    (run_toplevel_ops m ops).queue_ok := by
  induction ops generalizing m with
  | nil => exact h
  | cons op ops ih =>
    rw [List.length_cons] at hb
    obtain ⟨hok, hle⟩ := queue_ok_step op m h (by omega)
    exact ih (op.apply m).machine hok (by omega)

/-- A toplevel just created has a sound queue. -/
theorem queue_ok_init (d : Nat) (t : weston_desktop_xdg_toplevel) :
    (toplevel_machine.init d t).queue_ok :=
  ⟨List.Pairwise.nil, (by intro s hs; cases hs), rfl⟩

/-- Every state reached from a toplevel just created, fewer than `2 ^ 32` serials
in all having been handed out, has a sound queue. -/
theorem queue_ok_reached (d : Nat) (t : weston_desktop_xdg_toplevel)
    (ops : List toplevel_op) (hb : d + ops.length < 2 ^ 32) :
    (run_toplevel_ops (toplevel_machine.init d t) ops).queue_ok := by
  apply queue_ok_run ops _ (queue_ok_init d t)
  have hd : (toplevel_machine.init d t).display_serial = d :=
    Nat.mod_eq_of_lt (by omega)
  rw [hd]
  exact hb

/-- On a sound queue, acknowledging a queued serial succeeds and removes exactly
the entries with a serial up to it, from both views of the queue. -/
theorem ack_configure_of_queued (m : toplevel_machine) (h : m.queue_ok) (S : Nat)
    (hS : S ∈ m.queued_serials) :
    (m.ack_configure S).error = none ∧
    (m.ack_configure S).machine.configures =
      m.configures.filter (fun c => decide (S < c.base.serial)) ∧
    (m.ack_configure S).machine.toplevel.base.configure_list =
      m.toplevel.base.configure_list.filter (fun c => decide (S < c.serial)) := by
  obtain ⟨hs, _, hl⟩ := h
  have hfind := (find_serial_isSome m S).mpr hS
  unfold toplevel_machine.ack_configure
  split
  · rename_i hnone
    rw [hnone] at hfind
    simp at hfind
  · refine ⟨rfl, ?_, ?_⟩
    · exact pop_through_eq_filter
        (fun c : weston_desktop_xdg_toplevel_configure => c.base.serial) S m.configures hs hS
    · have hs2 : (m.toplevel.base.configure_list.map
          weston_desktop_xdg_surface_configure.serial).Pairwise (· < ·) := by
        rw [hl, List.map_map]
        exact hs
      have hS2 : S ∈ m.toplevel.base.configure_list.map
          weston_desktop_xdg_surface_configure.serial := by
        rw [hl, List.map_map]
        exact hS
      exact pop_through_eq_filter weston_desktop_xdg_surface_configure.serial S
        m.toplevel.base.configure_list hs2 hS2

/-- Acknowledging a serial that is not queued fails and changes nothing. -/
theorem ack_configure_of_not_queued (m : toplevel_machine) (S : Nat)
    (hS : S ∉ m.queued_serials) :
    (m.ack_configure S).error = some .InvalidSerial ∧
    (m.ack_configure S).machine = m ∧
    (m.ack_configure S).events = [] := by
  have hfind : (m.configures.find? (fun c => c.base.serial == S)).isSome ≠ true :=
    fun hf => hS ((find_serial_isSome m S).mp hf)
  unfold toplevel_machine.ack_configure
  split
  · exact ⟨rfl, rfl, rfl⟩
  · rename_i entry hsome
    rw [hsome] at hfind
    simp at hfind

/-- After the 32-bit counter has wrapped around, a serial above the last one the
display handed out can be a queued one: here the display's last serial is 0 and
the request with serial 4294967295 is still queued and can be acknowledged. -/
theorem wrapped_serial_still_queued :
    (run_toplevel_ops (toplevel_machine.init 4294967294 sample_toplevel)
      [.flush_pending_configure [], .flush_pending_configure []]).display_serial = 0 ∧
    (run_toplevel_ops (toplevel_machine.init 4294967294 sample_toplevel)
      [.flush_pending_configure [], .flush_pending_configure []]).queued_serials =
        [4294967295, 0] ∧
    ((run_toplevel_ops (toplevel_machine.init 4294967294 sample_toplevel)
      [.flush_pending_configure [], .flush_pending_configure []]).ack_configure
        4294967295).error = none := by
  decide

/-- C13: `ack_configure` with a serial that matches no queued Configure Request
fails with `InvalidSerial` and leaves the whole state, the toplevel's `current`
and the queue included, unchanged.  As long as the 32-bit serial counter has not
wrapped around, this covers a serial the display has not handed out yet (never
sent) and a serial that an earlier acknowledgement has drained. -/
theorem unmatched_ack_is_rejected :
    (∀ (m : toplevel_machine) (serial : Nat), serial ∉ m.queued_serials →
      (m.ack_configure serial).error = some .InvalidSerial ∧
      (m.ack_configure serial).machine = m ∧
      (m.ack_configure serial).machine.toplevel.current = m.toplevel.current ∧
      (m.ack_configure serial).machine.configures = m.configures ∧
      (m.ack_configure serial).machine.toplevel.base.configure_list =
        m.toplevel.base.configure_list) ∧
    (∀ (d : Nat) (t : weston_desktop_xdg_toplevel) (ops : List toplevel_op)
        (serial : Nat),
      d + ops.length < 2 ^ 32 →
      (run_toplevel_ops (toplevel_machine.init d t) ops).display_serial < serial →
      ((run_toplevel_ops (toplevel_machine.init d t) ops).ack_configure serial).error =
        some .InvalidSerial ∧
      ((run_toplevel_ops (toplevel_machine.init d t) ops).ack_configure serial).machine =
        run_toplevel_ops (toplevel_machine.init d t) ops) ∧
    (∀ (d : Nat) (t : weston_desktop_xdg_toplevel) (ops : List toplevel_op)
        (serial older : Nat),
      d + ops.length < 2 ^ 32 →
      serial ∈ (run_toplevel_ops (toplevel_machine.init d t) ops).queued_serials →
      older ≤ serial →
      ((run_toplevel_ops (toplevel_machine.init d t) (ops ++ [.ack_configure serial])).ack_configure
        older).error = some .InvalidSerial ∧
      ((run_toplevel_ops (toplevel_machine.init d t) (ops ++ [.ack_configure serial])).ack_configure
        older).machine =
        run_toplevel_ops (toplevel_machine.init d t) (ops ++ [.ack_configure serial])) := by
  refine ⟨?_, ?_, ?_⟩
  · intro m serial hS
    obtain ⟨he, hm, _⟩ := ack_configure_of_not_queued m serial hS
    refine ⟨he, hm, ?_, ?_, ?_⟩ <;> rw [hm]
  · intro d t ops serial hb hlt
    have hok := queue_ok_reached d t ops hb
    generalize run_toplevel_ops (toplevel_machine.init d t) ops = m at hok hlt
    have hS : serial ∉ m.queued_serials := by
      intro hin
      have := hok.2.1 serial hin
      omega
    obtain ⟨he, hm, _⟩ := ack_configure_of_not_queued m serial hS
    exact ⟨he, hm⟩
  · intro d t ops serial older hb hin hle
    have hok := queue_ok_reached d t ops hb
    have hrun : run_toplevel_ops (toplevel_machine.init d t) (ops ++ [.ack_configure serial]) =
        ((run_toplevel_ops (toplevel_machine.init d t) ops).ack_configure serial).machine := by
      simp [run_toplevel_ops, List.foldl_append, toplevel_op.apply]
    rw [hrun]
    generalize run_toplevel_ops (toplevel_machine.init d t) ops = m at hok hin
    have hdr := (ack_configure_of_queued m hok serial hin).2.1
    have hS : older ∉ (m.ack_configure serial).machine.queued_serials := by
      unfold toplevel_machine.queued_serials
      rw [hdr]
      intro hmem
      simp only [List.mem_map, List.mem_filter, decide_eq_true_eq] at hmem
      obtain ⟨c, ⟨_, hc⟩, hce⟩ := hmem
      omega
    obtain ⟨he, hm, _⟩ := ack_configure_of_not_queued _ older hS
    exact ⟨he, hm⟩

/-- C14: the legacy toplevel configure emitter sends exactly one event,
`configure(width, height, states)` on the toplevel's resource, whose width and
height are the toplevel's pending size and whose states array is the one it was
given; the toplevel, with its `pending`, `next` and `current`, is left as it
was. -/
theorem post_toplevel_configure_carries_pending_size
    (toplevel : weston_desktop_xdg_toplevel) (states : List Nat) :
    (weston_desktop_xdg_post_toplevel_configure toplevel states).2 =
      [Effect.zxdg_toplevel_v6_send_configure toplevel.resource
        toplevel.pending.size.width toplevel.pending.size.height states] ∧
    (weston_desktop_xdg_post_toplevel_configure toplevel states).1 = toplevel ∧
    (weston_desktop_xdg_post_toplevel_configure toplevel states).1.pending =
      toplevel.pending ∧
    (weston_desktop_xdg_post_toplevel_configure toplevel states).1.next =
      toplevel.next ∧
    (weston_desktop_xdg_post_toplevel_configure toplevel states).1.current =
      toplevel.current ∧
    desktop_xdg_handlers.post_toplevel_configure =
      weston_desktop_xdg_post_toplevel_configure :=
  ⟨rfl, rfl, rfl, rfl, rfl, rfl⟩

/-! ## The ConsoleKit2 launcher -/

/-- After `launcher_ck2_set_active wl active` the session is active exactly when
`active` is true. -/
theorem set_active_session_is_active (wl : launcher_ck2) (active : Bool) :
    (launcher_ck2_set_active wl active).1.session_is_active = active := by
  unfold launcher_ck2_set_active launcher_ck2.session_is_active
  by_cases h0 : wl.compositor.session_active = 0 <;> cases active <;> simp [h0]

/-- The outgoing calls of `launcher_ck2_set_active` hold no D-Bus message. -/
theorem pause_device_complete_sent_set_active (wl : launcher_ck2) (active : Bool) :
    pause_device_complete_sent (launcher_ck2_set_active wl active).2 = [] := by
  unfold launcher_ck2_set_active
  split <;> rfl

/-- C15: `parse_active` on a boolean variant `b` does the following.  With
`sync_drm` set it forwards only `b = false` to `launcher_ck2_set_active` and does
nothing for `b = true`; with `sync_drm` not set it forwards either value.
Forwarding `b` leaves the session active exactly when `b` is true, emitting the
session signal when that is a change.  On anything that is not a boolean
variant, `parse_active` changes nothing and makes no call. -/
theorem parse_active_forwards (wl : launcher_ck2) (b : Bool) :
    (wl.sync_drm = true →
      parse_active wl (.variant (.boolean true)) = (wl, []) ∧
      parse_active wl (.variant (.boolean false)) = launcher_ck2_set_active wl false) ∧
    (wl.sync_drm = false →
      parse_active wl (.variant (.boolean b)) = launcher_ck2_set_active wl b) ∧
    (launcher_ck2_set_active wl b).1.session_is_active = b ∧
    (wl.session_is_active = b → launcher_ck2_set_active wl b = (wl, [])) ∧
    (wl.session_is_active ≠ b →
      (launcher_ck2_set_active wl b).2 = [LauncherEffect.wl_signal_emit_session_signal]) ∧
    (∀ iter : DBusValue, (∀ v : Bool, iter ≠ .variant (.boolean v)) →
      parse_active wl iter = (wl, [])) := by
  refine ⟨?_, ?_, set_active_session_is_active wl b, ?_, ?_, ?_⟩
  · intro hs
    simp [parse_active, hs]
  · intro hs
    simp [parse_active, hs]
  · intro h
    unfold launcher_ck2.session_is_active at h
    unfold launcher_ck2_set_active
    by_cases h0 : wl.compositor.session_active = 0 <;> cases b <;> simp_all
  · intro h
    unfold launcher_ck2.session_is_active at h
    unfold launcher_ck2_set_active
    by_cases h0 : wl.compositor.session_active = 0 <;> cases b <;> simp_all
  · intro iter hiter
    cases iter with
    | boolean v => rfl
    | other => rfl
    | variant sub =>
      cases sub with
      | boolean v => exact absurd rfl (hiter v)
      | variant s => rfl
      | other => rfl

/-- C16, the code at a failing input: with DRM synchronisation requested and
the session active, a `PauseDevice` signal for an input device (major 13, not
`DRM_MAJOR`) puts the session to sleep and emits the session signal; the major
number has no influence on what `device_paused` does. -/
theorem device_paused_sleeps_for_non_drm_device :
    (13 : Nat) ≠ DRM_MAJOR ∧
    sample_launcher_ck2.session_is_active = true ∧
    (device_paused sample_launcher_ck2 { new_method_call := true, append_args := true }
      (some (13, 64, "force"))).1.session_is_active = false ∧
    (device_paused sample_launcher_ck2 { new_method_call := true, append_args := true }
      (some (13, 64, "force"))).2 = [LauncherEffect.wl_signal_emit_session_signal] ∧
    (∀ (wl : launcher_ck2) (build : dbus_build) (major other_major minor : Nat)
        (type : String),
      (device_paused wl build (some (major, minor, type))).1 =
        (device_paused wl build (some (other_major, minor, type))).1) := by
  refine ⟨by decide, by decide, by decide, by decide, ?_⟩
  intro wl build major other_major minor type
  rfl

/-- C17, as stated, fails: a `PauseDevice` signal that parses, with type
`pause`, for which libdbus cannot allocate the reply message, is not
acknowledged. -/
theorem pause_not_acknowledged_without_message :
    (("pause" : String) == "pause") = true ∧
    pause_device_complete_sent
      (device_paused sample_launcher_ck2 { new_method_call := false, append_args := true }
        (some (226, 0, "pause"))).2 = [] := by
  decide

/-- C17, amended: on a `PauseDevice` signal that parses, the launcher sends
`PauseDeviceComplete`, once and with the same major and minor, exactly when the
type is `pause` and libdbus builds the message (`dbus_message_new_method_call`
and `dbus_message_append_args` succeed); for any other type nothing is sent.
The value of `sync_drm` has no influence. -/
theorem pause_acknowledged_iff_pause_and_built (wl : launcher_ck2) (build : dbus_build)
    (major minor : Nat) (type : String) :
    pause_device_complete_sent (device_paused wl build (some (major, minor, type))).2 =
      (if type = "pause" ∧ build.new_method_call = true ∧ build.append_args = true
        then [[major, minor]] else []) ∧
    (∀ s : Bool,
      pause_device_complete_sent
          (device_paused { wl with sync_drm := s } build (some (major, minor, type))).2 =
        pause_device_complete_sent
          (device_paused wl build (some (major, minor, type))).2) := by
  have key : ∀ w : launcher_ck2,
      pause_device_complete_sent (device_paused w build (some (major, minor, type))).2 =
        (if type = "pause" ∧ build.new_method_call = true ∧ build.append_args = true
          then [[major, minor]] else []) := by
    intro w
    have hs : ∀ (l : List LauncherEffect) (a : Bool),
        pause_device_complete_sent l = [] →
        pause_device_complete_sent
          (if w.sync_drm = true then launcher_ck2_set_active w a else (w, [])).2 = [] := by
      intro l a _
      split
      · exact pause_device_complete_sent_set_active w a
      · rfl
    have hsl := hs [] false rfl
    simp only [device_paused]
    by_cases ht : type = "pause"
    · cases hn : build.new_method_call <;> cases ha : build.append_args <;>
        simp [ht, hn, ha, launcher_ck2_pause_device_complete, pause_device_complete_sent,
          hsl]
    · simp [ht, pause_device_complete_sent, hsl]
  refine ⟨key wl, ?_⟩
  intro s
  rw [key, key]

/-- C18, the code at a failing input: with DRM synchronisation requested and
the session asleep, a `ResumeDevice` signal for an input device (major 13, not
`DRM_MAJOR`) wakes the session up and emits the session signal; the major number
has no influence on what `device_resumed` does. -/
theorem device_resumed_wakes_for_non_drm_device :
    (13 : Nat) ≠ DRM_MAJOR ∧
    ({ sample_launcher_ck2 with compositor := { session_active := 0 } }
      : launcher_ck2).session_is_active = false ∧
    (device_resumed { sample_launcher_ck2 with compositor := { session_active := 0 } }
      (some 13)).1.session_is_active = true ∧
    (device_resumed { sample_launcher_ck2 with compositor := { session_active := 0 } }
      (some 13)).2 = [LauncherEffect.wl_signal_emit_session_signal] ∧
    (∀ (wl : launcher_ck2) (major other_major : Nat),
      device_resumed wl (some major) = device_resumed wl (some other_major)) := by
  refine ⟨by decide, by decide, by decide, by decide, ?_⟩
  intro wl major other_major
  rfl

theorem setfl_arguments_append (l₁ l₂ : List LauncherEffect) :
    setfl_arguments (l₁ ++ l₂) = setfl_arguments l₁ ++ setfl_arguments l₂ := by
  induction l₁ with
  | nil => rfl
  | cons e es ih =>
    cases e <;> simp [setfl_arguments, ih]

theorem setfl_arguments_take_device (wl : launcher_ck2) (env : ck2_open_env)
    (major minor : Nat) :
    setfl_arguments (launcher_ck2_take_device wl env major minor).2 = [] := by
  unfold launcher_ck2_take_device
  split
  · rfl
  · split
    · rfl
    · split <;> rfl

theorem setfl_arguments_release_device (wl : launcher_ck2) (build : dbus_build)
    (major minor : Nat) :
    setfl_arguments (launcher_ck2_release_device wl build major minor) = [] := by
  unfold launcher_ck2_release_device
  split
  · split <;> rfl
  · rfl

/-- The `F_SETFL` calls of `launcher_ck2_open`: none, or one, made after
`F_GETFL` returned a non-negative value, with the flags computed from it. -/
theorem setfl_arguments_open (p : Platform) (wl : launcher_ck2) (env : ck2_open_env)
    (path : String) (flags : Nat) :
    setfl_arguments (launcher_ck2_open p wl env path flags).trace = [] ∨
    (0 ≤ env.getfl ∧
      setfl_arguments (launcher_ck2_open p wl env path flags).trace =
        [launcher_ck2_open_fl p env.getfl flags]) := by
  unfold launcher_ck2_open
  cases hst : env.stat with
  | none => left; rfl
  | some st =>
    cases hchr : st.is_chr with
    | false =>
      left
      simp [hchr, setfl_arguments]
    | true =>
      by_cases hfd : (launcher_ck2_take_device wl env st.major st.minor).1 < 0
      · left
        simp [hchr, hfd, setfl_arguments_append, setfl_arguments_take_device,
          setfl_arguments]
      · by_cases hfl : env.getfl < 0
        · left
          simp [hchr, hfd, hfl, setfl_arguments_append, setfl_arguments_take_device,
            setfl_arguments_release_device, setfl_arguments]
        · right
          refine ⟨Int.not_lt.mp hfl, ?_⟩
          by_cases hset : env.setfl < 0 <;>
            simp [hchr, hfd, hfl, hset, setfl_arguments_append,
              setfl_arguments_take_device, setfl_arguments_release_device,
              setfl_arguments]

/-- The flags passed to `F_SETFL` differ from the current ones at most in the
bits of `O_NONBLOCK`. -/
theorem launcher_ck2_open_fl_other_bits (p : Platform) (fl : Int) (flags i : Nat)
    (hi : (O_NONBLOCK p).testBit i = false) :
    (launcher_ck2_open_fl p fl flags).toNat.testBit i = fl.toNat.testBit i := by
  unfold launcher_ck2_open_fl
  split
  · rw [Int.toNat_natCast, Nat.testBit_or, hi, Bool.or_false]
  · rfl

/-- C19: whenever `launcher_ck2_open` sets the flags of the descriptor it
received, it does so once, after reading the current flags `fl`, and the flags it
sets are `fl` with `O_NONBLOCK` added when the caller's flags contain
`O_NONBLOCK`, and exactly `fl` otherwise, so that only the `O_NONBLOCK` bit of
the descriptor can change; two flag arguments that agree on `O_NONBLOCK` give
the same result.  When every call before it succeeds, the flags are set. -/
theorem launcher_ck2_open_changes_only_nonblock (p : Platform) (wl : launcher_ck2)
    (env : ck2_open_env) (path : String) (flags : Nat) :
    (∀ x ∈ setfl_arguments (launcher_ck2_open p wl env path flags).trace,
      0 ≤ env.getfl ∧
      setfl_arguments (launcher_ck2_open p wl env path flags).trace = [x] ∧
      (flags &&& O_NONBLOCK p ≠ 0 →
        x = ((env.getfl.toNat ||| O_NONBLOCK p : Nat) : Int)) ∧
      (flags &&& O_NONBLOCK p = 0 → x = env.getfl) ∧
      (∀ i : Nat, (O_NONBLOCK p).testBit i = false →
        x.toNat.testBit i = env.getfl.toNat.testBit i)) ∧
    (∀ flags₂ : Nat, flags₂ &&& O_NONBLOCK p = flags &&& O_NONBLOCK p →
      launcher_ck2_open p wl env path flags₂ = launcher_ck2_open p wl env path flags) ∧
    (∀ (st : stat_result) (fd : Int) (paused : Bool),
      env.stat = some st → st.is_chr = true →
      env.take_build = { new_method_call := true, append_args := true } →
      env.take_reply = some (some (fd, paused)) → 0 ≤ fd → 0 ≤ env.getfl →
      setfl_arguments (launcher_ck2_open p wl env path flags).trace =
        [launcher_ck2_open_fl p env.getfl flags]) := by
  refine ⟨?_, ?_, ?_⟩
  · intro x hx
    rcases setfl_arguments_open p wl env path flags with h | ⟨h0, h⟩
    · rw [h] at hx
      cases hx
    · rw [h] at hx ⊢
      simp only [List.mem_singleton] at hx
      subst hx
      refine ⟨h0, rfl, ?_, ?_, ?_⟩
      · intro hne
        simp [launcher_ck2_open_fl, truthy, hne]
      · intro he
        simp [launcher_ck2_open_fl, truthy, he]
      · intro i hi
        exact launcher_ck2_open_fl_other_bits p env.getfl flags i hi
  · intro flags₂ h
    unfold launcher_ck2_open launcher_ck2_open_fl
    rw [h]
  · intro st fd paused hst hchr hbuild hreply hfd hfl
    unfold launcher_ck2_open
    simp only [hst, hchr, launcher_ck2_take_device, hbuild, hreply]
    simp [Int.not_lt.mpr hfd, Int.not_lt.mpr hfl]
    split <;> simp [setfl_arguments, setfl_arguments_append, setfl_arguments_release_device]

/-- Witness for C19: on a descriptor whose current flags are `O_RDWR` (2), a
Linux caller passing `O_RDWR | O_NONBLOCK | O_CLOEXEC` (2 + 2048 + 524288) makes
the launcher set the flags to 2 + 2048, and a caller passing `O_RDWR | O_CLOEXEC`
makes it set them to 2. -/
theorem launcher_ck2_open_changes_only_nonblock_witness :
    setfl_arguments
      (launcher_ck2_open .linux sample_launcher_ck2 sample_ck2_open_env
        "/dev/dri/card0" 526338).trace = [2050] ∧
    setfl_arguments
      (launcher_ck2_open .linux sample_launcher_ck2 sample_ck2_open_env
        "/dev/dri/card0" 524290).trace = [2] := by
  have h₁ := (launcher_ck2_open_changes_only_nonblock .linux sample_launcher_ck2
    sample_ck2_open_env "/dev/dri/card0" 526338).2.2
    { is_chr := true, major := 226, minor := 0 } 7 false rfl rfl rfl rfl
    (by decide) (by decide)
  have h₂ := (launcher_ck2_open_changes_only_nonblock .linux sample_launcher_ck2
    sample_ck2_open_env "/dev/dri/card0" 524290).2.2
    { is_chr := true, major := 226, minor := 0 } 7 false rfl rfl rfl rfl
    (by decide) (by decide)
  rw [h₁, h₂]
  decide

/-! ## Restoring the tty -/

/-- C20: in the outgoing calls of `launcher_direct_restore` (on either platform)
and of `launcher_loginw_restore`, whatever the keyboard-mode, `KD_TEXT` and
terminal-attribute calls return, DRM master is dropped exactly once, the VT mode
is set exactly once, to `VT_AUTO`, and the drop comes first. -/
theorem restore_drops_master_before_vt_auto (p : Platform) (env : restore_env)
    (direct : launcher_direct) (loginw : launcher_loginw) :
    (launcher_direct_restore p env direct).filter
        LauncherEffect.is_drop_master_or_vt_setmode =
      [LauncherEffect.drmDropMaster direct.drm_fd,
       LauncherEffect.ioctl direct.tty (.VT_SETMODE .VT_AUTO)] ∧
    (launcher_loginw_restore env loginw).filter
        LauncherEffect.is_drop_master_or_vt_setmode =
      [LauncherEffect.drmDropMaster loginw.drm_fd,
       LauncherEffect.ioctl loginw.tty (.VT_SETMODE .VT_AUTO)] := by
  refine ⟨?_, ?_⟩
  · cases p <;>
      simp only [launcher_direct_restore, List.filter_append] <;>
      split_ifs <;>
      simp [List.filter, LauncherEffect.is_drop_master_or_vt_setmode]
  · simp only [launcher_loginw_restore, List.filter_append]
    split_ifs <;>
      simp [List.filter, LauncherEffect.is_drop_master_or_vt_setmode]

/-! ## The legacy translation as a function of the direction bits -/

/-- The direction bits of a value are the value modulo 16. -/
theorem v6_direction_bits_eq_mod (a : Nat) : v6_direction_bits a = a % 16 := by
  have h15 : v6_direction_mask = 15 := by decide
  unfold v6_direction_bits
  rw [h15, and_low4 a 15 (by decide)]
  have hm : a % 16 < 16 := Nat.mod_lt _ (by decide)
  generalize a % 16 = m at hm
  interval_cases m <;> rfl

/-- On a conflict-free value the forwarded anchor is at most 8 and decomposes
into the direction bits of the value. -/
theorem set_anchor_round_trip (c r a : Nat) (h : v6_conflict a = false) :
    ∃ tr : Nat,
      weston_desktop_xdg_positioner_v6_protocol_set_anchor c r a =
        [Effect.weston_desktop_xdg_wm_positioner_protocol_set_anchor c r tr] ∧
      tr ≤ 8 ∧ canonical_anchor_to_v6 tr = v6_direction_bits a := by
  rw [set_anchor_low4, v6_direction_bits_eq_mod]
  rw [v6_conflict_low4] at h
  have hm : a % 16 < 16 := Nat.mod_lt _ (by decide)
  generalize a % 16 = m at hm h
  interval_cases m <;> first
    | (exfalso; revert h; decide)
    | (refine ⟨_, rfl, ?_⟩; decide)

/-- C21: the legacy anchor and gravity requests depend on their value only
through the four direction bits: two values that agree on those bits give the
same outgoing calls, hence the same outcome; a value gives the same calls as
the value stripped of every other bit, and it is rejected exactly when its
direction bits conflict, so that bits outside the four directions never cause a
rejection. -/
theorem legacy_requests_depend_on_direction_bits (wl_client resource a b : Nat)
    (h : v6_direction_bits a = v6_direction_bits b) :
    weston_desktop_xdg_positioner_v6_protocol_set_anchor wl_client resource a =
      weston_desktop_xdg_positioner_v6_protocol_set_anchor wl_client resource b ∧
    weston_desktop_xdg_positioner_v6_protocol_set_gravity wl_client resource a =
      weston_desktop_xdg_positioner_v6_protocol_set_gravity wl_client resource b ∧
    outcomes (weston_desktop_xdg_positioner_v6_protocol_set_anchor wl_client resource a) =
      outcomes (weston_desktop_xdg_positioner_v6_protocol_set_anchor wl_client resource b) ∧
    outcomes (weston_desktop_xdg_positioner_v6_protocol_set_gravity wl_client resource a) =
      outcomes (weston_desktop_xdg_positioner_v6_protocol_set_gravity wl_client resource b) ∧
    weston_desktop_xdg_positioner_v6_protocol_set_anchor wl_client resource a =
      weston_desktop_xdg_positioner_v6_protocol_set_anchor wl_client resource
        (v6_direction_bits a) ∧
    weston_desktop_xdg_positioner_v6_protocol_set_gravity wl_client resource a =
      weston_desktop_xdg_positioner_v6_protocol_set_gravity wl_client resource
        (v6_direction_bits a) ∧
    ((∃ code, positioner_outcome.rejected code ∈
        outcomes (weston_desktop_xdg_positioner_v6_protocol_set_anchor
          wl_client resource a)) ↔
      v6_conflict (v6_direction_bits a) = true) ∧
    ((∃ code, positioner_outcome.rejected code ∈
        outcomes (weston_desktop_xdg_positioner_v6_protocol_set_gravity
          wl_client resource a)) ↔
      v6_conflict (v6_direction_bits a) = true) := by
  rw [v6_direction_bits_eq_mod, v6_direction_bits_eq_mod] at h
  have ha : weston_desktop_xdg_positioner_v6_protocol_set_anchor wl_client resource a =
      weston_desktop_xdg_positioner_v6_protocol_set_anchor wl_client resource b := by
    rw [set_anchor_low4 wl_client resource a, set_anchor_low4 wl_client resource b, h]
  have hg : weston_desktop_xdg_positioner_v6_protocol_set_gravity wl_client resource a =
      weston_desktop_xdg_positioner_v6_protocol_set_gravity wl_client resource b := by
    rw [set_gravity_low4 wl_client resource a, set_gravity_low4 wl_client resource b, h]
  have hc : v6_conflict (v6_direction_bits a) = v6_conflict a := by
    rw [v6_direction_bits_eq_mod, ← v6_conflict_low4]
  refine ⟨ha, hg, by rw [ha], by rw [hg], ?_, ?_, ?_, ?_⟩
  · rw [v6_direction_bits_eq_mod]
    exact set_anchor_low4 wl_client resource a
  · rw [v6_direction_bits_eq_mod]
    exact set_gravity_low4 wl_client resource a
  · rw [hc]
    cases hcf : v6_conflict a with
    | true =>
      rw [set_anchor_of_conflict wl_client resource a hcf]
      simp [outcomes, Effect.outcome]
    | false =>
      obtain ⟨tr, htr⟩ := set_anchor_of_no_conflict wl_client resource a hcf
      rw [htr]
      simp [outcomes, Effect.outcome]
  · rw [hc]
    cases hcf : v6_conflict a with
    | true =>
      rw [set_gravity_of_conflict wl_client resource a hcf]
      simp [outcomes, Effect.outcome]
    | false =>
      obtain ⟨tr, htr⟩ := set_gravity_of_no_conflict wl_client resource a hcf
      rw [htr]
      simp [outcomes, Effect.outcome]

/-- Witness for C21: `TOP|LEFT` (5) and the same with two stray high bits
(5 + 16 + 4096) agree on the direction bits and both forward `TOP_LEFT`. -/
theorem legacy_requests_depend_on_direction_bits_witness :
    outcomes (weston_desktop_xdg_positioner_v6_protocol_set_anchor 7 9 4117) =
      [positioner_outcome.forwarded XDG_POSITIONER_ANCHOR_TOP_LEFT] ∧
    outcomes (weston_desktop_xdg_positioner_v6_protocol_set_gravity 7 9 4117) =
      [positioner_outcome.forwarded XDG_POSITIONER_GRAVITY_TOP_LEFT] := by
  have h := legacy_requests_depend_on_direction_bits 7 9 4117 5 (by decide)
  rw [h.2.2.1, h.2.2.2.1]
  decide

/-- C22: the legacy anchor translation is a bijection between the nine
conflict-free combinations of the four direction bits and the canonical values 0
to 8.  Every forwarded value is at most 8 and decomposes, by its vertical and
horizontal edges, into exactly the direction bits of the input; conflict-free
inputs forwarding the same value have the same direction bits; and every value
from 0 to 8 is forwarded for some conflict-free combination. -/
theorem anchor_translation_is_bijection :
    v6_conflict_free_combinations.length = 9 ∧
    (∀ c r a : Nat, v6_conflict a = false →
      ∃ tr : Nat,
        weston_desktop_xdg_positioner_v6_protocol_set_anchor c r a =
          [Effect.weston_desktop_xdg_wm_positioner_protocol_set_anchor c r tr] ∧
        tr ≤ 8 ∧ canonical_anchor_to_v6 tr = v6_direction_bits a) ∧
    (∀ c r a b : Nat, v6_conflict a = false → v6_conflict b = false →
      outcomes (weston_desktop_xdg_positioner_v6_protocol_set_anchor c r a) =
        outcomes (weston_desktop_xdg_positioner_v6_protocol_set_anchor c r b) →
      v6_direction_bits a = v6_direction_bits b) ∧
    (∀ c r v : Nat, v ≤ 8 →
      ∃ a ∈ v6_conflict_free_combinations,
        weston_desktop_xdg_positioner_v6_protocol_set_anchor c r a =
          [Effect.weston_desktop_xdg_wm_positioner_protocol_set_anchor c r v]) := by
  refine ⟨by decide, set_anchor_round_trip, ?_, ?_⟩
  · intro c r a b ha hb hab
    obtain ⟨ta, hta, _, hra⟩ := set_anchor_round_trip c r a ha
    obtain ⟨tb, htb, _, hrb⟩ := set_anchor_round_trip c r b hb
    rw [hta, htb] at hab
    simp only [outcomes, List.filterMap_cons, Effect.outcome, List.filterMap_nil,
      List.cons.injEq, positioner_outcome.forwarded.injEq, and_true] at hab
    rw [← hra, ← hrb, hab]
  · intro c r v hv
    interval_cases v
    · exact ⟨0, by decide, rfl⟩
    · exact ⟨1, by decide, rfl⟩
    · exact ⟨2, by decide, rfl⟩
    · exact ⟨4, by decide, rfl⟩
    · exact ⟨8, by decide, rfl⟩
    · exact ⟨5, by decide, rfl⟩
    · exact ⟨6, by decide, rfl⟩
    · exact ⟨9, by decide, rfl⟩
    · exact ⟨10, by decide, rfl⟩

/-- C23: for every input value the legacy `set_gravity` makes the calls of the
legacy `set_anchor` with the canonical `set_anchor` call read as the canonical
`set_gravity` call: both reject with the same protocol error, or both forward
the same canonical number. -/
theorem anchor_and_gravity_translate_alike (wl_client resource v : Nat) :
    weston_desktop_xdg_positioner_v6_protocol_set_gravity wl_client resource v =
      (weston_desktop_xdg_positioner_v6_protocol_set_anchor wl_client resource v).map
        Effect.as_gravity_call ∧
    outcomes (weston_desktop_xdg_positioner_v6_protocol_set_gravity wl_client resource v) =
      outcomes (weston_desktop_xdg_positioner_v6_protocol_set_anchor wl_client resource v) ∧
    (v6_conflict v = true →
      weston_desktop_xdg_positioner_v6_protocol_set_anchor wl_client resource v =
        [Effect.wl_resource_post_error resource ZXDG_POSITIONER_V6_ERROR_INVALID_INPUT
          "same-axis values are not allowed"] ∧
      weston_desktop_xdg_positioner_v6_protocol_set_gravity wl_client resource v =
        [Effect.wl_resource_post_error resource ZXDG_POSITIONER_V6_ERROR_INVALID_INPUT
          "same-axis values are not allowed"]) ∧
    (v6_conflict v = false →
      ∃ tr : Nat,
        weston_desktop_xdg_positioner_v6_protocol_set_anchor wl_client resource v =
          [Effect.weston_desktop_xdg_wm_positioner_protocol_set_anchor
            wl_client resource tr] ∧
        weston_desktop_xdg_positioner_v6_protocol_set_gravity wl_client resource v =
          [Effect.weston_desktop_xdg_wm_positioner_protocol_set_gravity
            wl_client resource tr]) := by
  have key : weston_desktop_xdg_positioner_v6_protocol_set_gravity wl_client resource v =
      (weston_desktop_xdg_positioner_v6_protocol_set_anchor wl_client resource v).map
        Effect.as_gravity_call := by
    rw [set_gravity_low4, set_anchor_low4]
    have hm : v % 16 < 16 := Nat.mod_lt _ (by decide)
    generalize v % 16 = m at hm
    interval_cases m <;> rfl
  refine ⟨key, ?_, ?_, ?_⟩
  · rw [key]
    cases hcf : v6_conflict v with
    | true =>
      rw [set_anchor_of_conflict wl_client resource v hcf]
      rfl
    | false =>
      obtain ⟨tr, htr⟩ := set_anchor_of_no_conflict wl_client resource v hcf
      rw [htr]
      rfl
  · intro hcf
    exact ⟨set_anchor_of_conflict wl_client resource v hcf,
      set_gravity_of_conflict wl_client resource v hcf⟩
  · intro hcf
    obtain ⟨tr, htr⟩ := set_anchor_of_no_conflict wl_client resource v hcf
    refine ⟨tr, htr, ?_⟩
    rw [key, htr]
    rfl

end Weston
